import Mathlib

/-!
# Serialized file-access layer (`gdo_file_system_util.c`)

A shallow embedding of the gateway functions of `gdo_file_system_util.c` and of the
boot-time initialisation routine.  The Zephyr file-system and flash primitives that the
C code calls are kept abstract (`Driver`): every theorem that quantifies over a driver and
a driver state holds for every possible outcome of the underlying calls.  Each embedded
function returns its C return value, the driver state after the call and the ordered list
of primitive calls it issued (`Event`), mutex operations included.
-/

set_option linter.unusedVariables false

namespace GdoFs

/-- Bytes of a NUL-terminated C string, the terminator excluded (`strlen` is `List.length`,
`strcmp(a, b) == 0` is `a = b`). -/
abbrev CStr := List Nat

/-! ## Constants of `zephyr/fs/fs.h`, `errno.h` and `gdo_file_system_util.h` -/

def FS_O_READ : Nat := 0x01
def FS_O_WRITE : Nat := 0x02
def FS_O_RDWR : Nat := FS_O_READ ||| FS_O_WRITE
def FS_O_CREATE : Nat := 0x10
def FS_O_APPEND : Nat := 0x20

def ENOENT : Int := 2
def EBADF : Int := 9
def EACCES : Int := 13
def ENOSPC : Int := 28

/-- The `enum file_status` of `gdo_file_system_util.h`. -/
def FILE_ERROR : Nat := 0
def FILE_EXIST : Nat := 1
def FILE_NOT_EXIST : Nat := 2

/-- Conversion of an `int` to the 32-bit `size_t` of the target, as performed by the usual
arithmetic conversions in `res != len`. -/
def toSizeT (res : Int) : Nat := (res % (2 ^ 32 : Int)).toNat

/-! ## Primitive calls and their trace -/

/-- One primitive call issued by the layer, with its arguments and its return code. -/
inductive Event where
  | lock
  | unlock
  | fs_open (path : CStr) (flags : Nat) (rc : Int)
  | fs_close (rc : Int)
  | fs_truncate (length : Nat) (rc : Int)
  | fs_sync (rc : Int)
  | fs_read (len : Nat) (rc : Int)
  | fs_write (data : List Nat) (len : Nat) (rc : Int)
  | fs_seek (off : Nat) (rc : Int)
  | fs_unlink (path : CStr) (rc : Int)
  | fs_opendir (path : CStr) (rc : Int)
  | fs_readdir (rc : Int) (name : CStr)
  | fs_closedir (rc : Int)
  | flash_erase (off : Nat) (size : Nat) (rc : Int)
  | flash_write (off : Nat) (data : List Nat) (rc : Int)
  | flash_read (off : Nat) (len : Nat) (rc : Int)
  deriving DecidableEq, Repr

/-- A directory entry as delivered by `fs_readdir`. -/
structure Dirent where
  name : CStr
  isDir : Bool
  size : Nat
  deriving DecidableEq, Repr

/-- The Zephyr primitives used by the layer, over an arbitrary state `σ` of the underlying
file system and flash device.  The file (directory) handle is the one local
`struct fs_file_t` (`struct fs_dir_t`) of the calling function. -/
structure Driver (σ : Type) where
  fs_open : σ → CStr → Nat → Int × σ
  fs_close : σ → Int × σ
  fs_truncate : σ → Nat → Int × σ
  fs_sync : σ → Int × σ
  fs_read : σ → Nat → Int × List Nat × σ
  fs_write : σ → List Nat → Nat → Int × σ
  fs_seek : σ → Nat → Int × σ
  fs_unlink : σ → CStr → Int × σ
  fs_opendir : σ → CStr → Int × σ
  fs_readdir : σ → Int × Dirent × σ
  fs_closedir : σ → Int × σ
  device_is_ready : σ → Bool
  flash_erase : σ → Nat → Nat → Int × σ
  flash_write : σ → Nat → List Nat → Int × σ
  flash_read : σ → Nat → Nat → Int × List Nat × σ

/-- Result of an embedded function: C return value, driver state afterwards, calls issued. -/
structure Ret (α σ : Type) where
  val : α
  st : σ
  tr : List Event

/-- Build-time configuration: the macros of `gdo_config.h` and `gdo_schedule.h` used by
`gdo_file_system_util.c`, and the size of `struct schedule_data`.  Their values are fixed by
headers outside the three source files, so every function takes them as a parameter. -/
structure Config where
  GDO_FS_MAX_PATH_LEN : Nat
  GDO_USER_INFOR_FULL_PATH : CStr
  SCHEDULE_CURRENT_FILE_FULL_PATH : CStr
  SCHEDULE_BACKUP_FILE_FULL_PATH : CStr
  HOME_CFG_FILE_FULL_PATH : CStr
  GDO_MAX_USER_SUPORT : Nat
  GDO_MAX_USER_NAME_LEN : Nat
  GDO_ECDH_PUBLIC_KEY_LEN : Nat
  GDO_USER_INFOR_LEN : Nat
  GDO_USER_NUM_TEMP_KEY : Nat
  GDO_USER_TEMP_KEY_LEN : Nat
  SCHEDULE_NUM : Nat
  sizeof_schedule_data : Nat
  HOME_CFG_FILE_SIZE : Nat
  BUILD_TIMESTAMP : CStr
  GDO_BUILD_TIME_OFFSET : Nat
  SPI_FLASH_FS_REGION_OFFSET : Nat
  SPI_FLASH_FS_SECTOR_SIZE : Nat
  GDO_FS_INIT_TYPE : Nat
  GDO_FS_FORMAT : Nat
  GDO_FS_NO_CHANGE : Nat
  GDO_FS_LOG_FILE : Nat
  GDO_FS_USER_INFO : Nat
  GDO_FS_SCHEDULE : Nat
  GDO_FS_HOME_CFG : Nat

/-- The value of `sizeof(gdo_user_infor)` (`gdo_user_infor_util.h`): all members are `uint8_t`
arrays or scalars, so there is no padding. -/
def sizeof_gdo_user_infor (cfg : Config) : Nat :=
  cfg.GDO_MAX_USER_NAME_LEN + cfg.GDO_ECDH_PUBLIC_KEY_LEN + 1 + 1 + cfg.GDO_USER_INFOR_LEN
    + cfg.GDO_USER_NUM_TEMP_KEY * cfg.GDO_USER_TEMP_KEY_LEN

/-- The expression `GDO_MAX_USER_SUPORT * sizeof(gdo_user_infor)` in 32-bit `size_t`. -/
def userInforFileSize (cfg : Config) : Nat :=
  (cfg.GDO_MAX_USER_SUPORT * sizeof_gdo_user_infor cfg) % 2 ^ 32

/-- The expression `SCHEDULE_NUM * sizeof(struct schedule_data)` in 32-bit `size_t`. -/
def scheduleFileSize (cfg : Config) : Nat :=
  (cfg.SCHEDULE_NUM * cfg.sizeof_schedule_data) % 2 ^ 32

variable {σ : Type}

/-! ## Gateway functions -/

/-- Embedding of `gdo_fs_create_file`. -/
def gdo_fs_create_file (d : Driver σ) (cfg : Config) (full_path_file : CStr) (size_file : Nat)
    (s : σ) : Ret Bool σ :=
  if cfg.GDO_FS_MAX_PATH_LEN ≤ full_path_file.length then
    ⟨false, s, []⟩
  else
    let o := d.fs_open s full_path_file (FS_O_CREATE ||| FS_O_RDWR)
    let eo := Event.fs_open full_path_file (FS_O_CREATE ||| FS_O_RDWR) o.1
    if o.1 ≠ 0 then
      ⟨false, o.2, [Event.lock, eo, Event.unlock]⟩
    else
      let t0 := d.fs_truncate o.2 0
      if t0.1 ≠ 0 then
        let c := d.fs_close t0.2
        ⟨false, c.2, [Event.lock, eo, Event.fs_truncate 0 t0.1, Event.fs_close c.1,
          Event.unlock]⟩
      else
        let t1 := d.fs_truncate t0.2 size_file
        if t1.1 ≠ 0 then
          let c := d.fs_close t1.2
          ⟨false, c.2, [Event.lock, eo, Event.fs_truncate 0 t0.1,
            Event.fs_truncate size_file t1.1, Event.fs_close c.1, Event.unlock]⟩
        else
          let y := d.fs_sync t1.2
          let c := d.fs_close y.2
          ⟨true, c.2, [Event.lock, eo, Event.fs_truncate 0 t0.1,
            Event.fs_truncate size_file t1.1, Event.fs_sync y.1, Event.fs_close c.1,
            Event.unlock]⟩

/-- Embedding of `gdo_fs_read_file`; the second component of the value is what `fs_read`
stored into `buff` (empty when `fs_read` was not reached). -/
def gdo_fs_read_file (d : Driver σ) (disk : CStr) (full_path_file : CStr) (len : Nat) (s : σ) :
    Ret (Int × List Nat) σ :=
  let o := d.fs_open s full_path_file FS_O_READ
  let eo := Event.fs_open full_path_file FS_O_READ o.1
  if o.1 ≠ 0 then
    ⟨(o.1, []), o.2, [Event.lock, eo, Event.unlock]⟩
  else
    let r := d.fs_read o.2 len
    let res : Int := if toSizeT r.1 ≠ len then 0 else r.1
    let c := d.fs_close r.2.2
    ⟨(res, r.2.1), c.2, [Event.lock, eo, Event.fs_read len r.1, Event.fs_close c.1,
      Event.unlock]⟩

/-- Embedding of `gdo_fs_write_file`. -/
def gdo_fs_write_file (d : Driver σ) (disk : CStr) (full_path_file : CStr) (buff : List Nat)
    (len : Nat) (s : σ) : Ret Int σ :=
  let o := d.fs_open s full_path_file (FS_O_APPEND ||| FS_O_WRITE)
  let eo := Event.fs_open full_path_file (FS_O_APPEND ||| FS_O_WRITE) o.1
  if o.1 ≠ 0 then
    ⟨o.1, o.2, [Event.lock, eo, Event.unlock]⟩
  else
    let w := d.fs_write o.2 buff len
    if w.1 < 0 ∨ toSizeT w.1 ≠ len then
      let c := d.fs_close w.2
      ⟨-1, c.2, [Event.lock, eo, Event.fs_write buff len w.1, Event.unlock,
        Event.fs_close c.1, Event.unlock]⟩
    else
      let c := d.fs_close w.2
      ⟨w.1, c.2, [Event.lock, eo, Event.fs_write buff len w.1, Event.fs_close c.1,
        Event.unlock]⟩

/-- Embedding of `gdo_fs_write_file_index`. -/
def gdo_fs_write_file_index (d : Driver σ) (disk : CStr) (full_path_file : CStr)
    (buff : List Nat) (len : Nat) (index : Nat) (s : σ) : Ret Int σ :=
  let o := d.fs_open s full_path_file FS_O_WRITE
  let eo := Event.fs_open full_path_file FS_O_WRITE o.1
  if o.1 ≠ 0 then
    ⟨o.1, o.2, [Event.lock, eo, Event.unlock]⟩
  else
    let k := d.fs_seek o.2 index
    if k.1 ≠ 0 then
      ⟨k.1, k.2, [Event.lock, eo, Event.fs_seek index k.1, Event.unlock]⟩
    else
      let w := d.fs_write k.2 buff len
      let res : Int := if w.1 < 0 ∨ toSizeT w.1 ≠ len then -1 else w.1
      let c := d.fs_close w.2
      ⟨res, c.2, [Event.lock, eo, Event.fs_seek index k.1, Event.fs_write buff len w.1,
        Event.fs_close c.1, Event.unlock]⟩

/-- Embedding of `gdo_fs_read_file_index`; the second component of the value is what
`fs_read` stored into `buff` (empty when `fs_read` was not reached). -/
def gdo_fs_read_file_index (d : Driver σ) (disk : CStr) (full_path_file : CStr) (len : Nat)
    (index : Nat) (s : σ) : Ret (Int × List Nat) σ :=
  let o := d.fs_open s full_path_file FS_O_READ
  let eo := Event.fs_open full_path_file FS_O_READ o.1
  if o.1 ≠ 0 then
    ⟨(o.1, []), o.2, [Event.lock, eo, Event.unlock]⟩
  else
    let k := d.fs_seek o.2 index
    if k.1 ≠ 0 then
      let c := d.fs_close k.2
      ⟨(k.1, []), c.2, [Event.lock, eo, Event.fs_seek index k.1, Event.fs_close c.1,
        Event.unlock]⟩
    else
      let r := d.fs_read k.2 len
      let res1 : Int := if r.1 < 0 then -1 else r.1
      let res : Int := if toSizeT res1 ≠ len then -1 else res1
      let c := d.fs_close r.2.2
      ⟨(res, r.2.1), c.2, [Event.lock, eo, Event.fs_seek index k.1, Event.fs_read len r.1,
        Event.fs_close c.1, Event.unlock]⟩

/-- Embedding of `gdo_fs_delete_file`: four independent `if (strcmp(...) == 0)` statements
between one lock and one unlock.  The nested acquisition inside `gdo_fs_create_file` is by
the owner of the mutex, which a Zephyr `k_mutex` permits. -/
def gdo_fs_delete_file (d : Driver σ) (cfg : Config) (disk : CStr) (full_path_file : CStr)
    (s : σ) : Ret Bool σ :=
  let r0 : Ret Bool σ := ⟨true, s, [Event.lock]⟩
  let r1 : Ret Bool σ :=
    if full_path_file = cfg.GDO_USER_INFOR_FULL_PATH then
      let c := gdo_fs_create_file d cfg cfg.GDO_USER_INFOR_FULL_PATH (userInforFileSize cfg) r0.st
      ⟨c.val, c.st, r0.tr ++ c.tr⟩
    else r0
  let r2 : Ret Bool σ :=
    if full_path_file = cfg.SCHEDULE_CURRENT_FILE_FULL_PATH then
      let c := gdo_fs_create_file d cfg cfg.SCHEDULE_CURRENT_FILE_FULL_PATH
        (scheduleFileSize cfg) r1.st
      ⟨c.val, c.st, r1.tr ++ c.tr⟩
    else r1
  let r3 : Ret Bool σ :=
    if full_path_file = cfg.SCHEDULE_BACKUP_FILE_FULL_PATH then
      let c := gdo_fs_create_file d cfg cfg.SCHEDULE_BACKUP_FILE_FULL_PATH
        (scheduleFileSize cfg) r2.st
      ⟨c.val, c.st, r2.tr ++ c.tr⟩
    else r2
  let r4 : Ret Bool σ :=
    if full_path_file = cfg.HOME_CFG_FILE_FULL_PATH then
      let c := gdo_fs_create_file d cfg cfg.HOME_CFG_FILE_FULL_PATH cfg.HOME_CFG_FILE_SIZE r3.st
      ⟨c.val, c.st, r3.tr ++ c.tr⟩
    else r3
  ⟨r4.val, r4.st, r4.tr ++ [Event.unlock]⟩

/-- Embedding of `gdo_fs_file_exist`. -/
def gdo_fs_file_exist (d : Driver σ) (full_path_file : CStr) (s : σ) : Ret Nat σ :=
  let o := d.fs_open s full_path_file FS_O_READ
  let eo := Event.fs_open full_path_file FS_O_READ o.1
  if o.1 = 0 then
    let c := d.fs_close o.2
    ⟨FILE_EXIST, c.2, [Event.lock, eo, Event.fs_close c.1, Event.unlock]⟩
  else if o.1 = -ENOENT then
    ⟨FILE_NOT_EXIST, o.2, [Event.lock, eo, Event.unlock]⟩
  else
    ⟨FILE_ERROR, o.2, [Event.lock, eo, Event.unlock]⟩

/-- The `for (;;)` loop of `gdo_fs_delete_all_file`, bounded by `fuel` iterations; `none`
when the bound is exhausted before the loop breaks.  The value is `some count` when the loop
breaks, and `none` when `strcpy` / `strcat` write `path`, `/`, the entry name and the
terminator beyond the `GDO_FS_MAX_PATH_LEN` bytes of `path_temp`, which the code does not
check: the behaviour is then undefined and the trace holds the calls issued before.  Every
entry is unlinked whatever its type. -/
def deleteAllLoop (d : Driver σ) (cfg : Config) (path : CStr) :
    Nat → Nat → σ → Option (Ret (Option Nat) σ)
  | 0, _, _ => none
  | fuel + 1, count, s =>
    let r := d.fs_readdir s
    let er := Event.fs_readdir r.1 r.2.1.name
    if r.1 ≠ 0 ∨ r.2.1.name = [] then
      some ⟨some count, r.2.2, [er]⟩
    else if cfg.GDO_FS_MAX_PATH_LEN ≤ path.length + 1 + r.2.1.name.length then
      some ⟨none, r.2.2, [er]⟩
    else
      let path_temp := path ++ [47] ++ r.2.1.name
      let u := d.fs_unlink r.2.2 path_temp
      match deleteAllLoop d cfg path fuel (count + 1) u.2 with
      | none => none
      | some l => some ⟨l.val, l.st, er :: Event.fs_unlink path_temp u.1 :: l.tr⟩

/-- Embedding of `gdo_fs_delete_all_file`, the directory loop bounded by `fuel`.  The value
is `some res` when the function returns `res` and `none` when `path_temp` overflowed
(undefined behaviour, no return and no unlock are modelled). -/
def gdo_fs_delete_all_file (d : Driver σ) (cfg : Config) (fuel : Nat) (disk : CStr)
    (path : CStr) (s : σ) : Option (Ret (Option Int) σ) :=
  let o := d.fs_opendir s path
  let eo := Event.fs_opendir path o.1
  if o.1 ≠ 0 then
    some ⟨some o.1, o.2, [Event.lock, eo, Event.unlock]⟩
  else
    match deleteAllLoop d cfg path fuel 0 o.2 with
    | none => none
    | some l =>
      match l.val with
      | none => some ⟨none, l.st, [Event.lock, eo] ++ l.tr⟩
      | some count => some ⟨some (count : Int), l.st, [Event.lock, eo] ++ l.tr ++ [Event.unlock]⟩

/-! ## Raw flash access -/

/-- Embedding of `gdo_flash_earse_region`. -/
def gdo_flash_earse_region (d : Driver σ) (region_offset : Nat) (sector_size : Nat) (s : σ) :
    Ret Bool σ :=
  if d.device_is_ready s = false then
    ⟨false, s, []⟩
  else
    let r := d.flash_erase s region_offset sector_size
    ⟨decide (r.1 = 0), r.2, [Event.flash_erase region_offset sector_size r.1]⟩

/-- Embedding of `gdo_flash_write_offset`. -/
def gdo_flash_write_offset (d : Driver σ) (region_offset : Nat) (buff_write : List Nat) (s : σ) :
    Ret Bool σ :=
  if d.device_is_ready s = false then
    ⟨false, s, []⟩
  else
    let r := d.flash_write s region_offset buff_write
    ⟨decide (r.1 = 0), r.2, [Event.flash_write region_offset buff_write r.1]⟩

/-- Embedding of `gdo_flash_read_offset`; the second component of the value is what
`flash_read` stored into `buff_read` (empty when `flash_read` was not reached). -/
def gdo_flash_read_offset (d : Driver σ) (region_offset : Nat) (len : Nat) (s : σ) :
    Ret (Bool × List Nat) σ :=
  if d.device_is_ready s = false then
    ⟨(false, []), s, []⟩
  else
    let r := d.flash_read s region_offset len
    ⟨(decide (r.1 = 0), r.2.1), r.2.2, [Event.flash_read region_offset len r.1]⟩

/-! ## Storage bootstrap -/

/-- Embedding of `gdo_disk_init`: the body is `return 0;`, the mount code is commented out. -/
def gdo_disk_init (disk : CStr) : Int := 0

/-- One `if (gdo_fs_file_exist(p) == FILE_NOT_EXIST) flag &= gdo_fs_create_file(p, n);`
statement of `createFileIfNotExist`, applied to the running result `r`. -/
def gapFillStep (d : Driver σ) (cfg : Config) (p : CStr) (n : Nat) (r : Ret Bool σ) :
    Ret Bool σ :=
  let e := gdo_fs_file_exist d p r.st
  if e.val = FILE_NOT_EXIST then
    let c := gdo_fs_create_file d cfg p n e.st
    ⟨r.val && c.val, c.st, r.tr ++ e.tr ++ c.tr⟩
  else
    ⟨r.val, e.st, r.tr ++ e.tr⟩

/-- Embedding of `createFileIfNotExist`. -/
def createFileIfNotExist (d : Driver σ) (cfg : Config) (s : σ) : Ret Bool σ :=
  let r0 : Ret Bool σ := ⟨true, s, []⟩
  let r1 := gapFillStep d cfg cfg.GDO_USER_INFOR_FULL_PATH (userInforFileSize cfg) r0
  let r2 := gapFillStep d cfg cfg.SCHEDULE_CURRENT_FILE_FULL_PATH (scheduleFileSize cfg) r1
  let r3 := gapFillStep d cfg cfg.SCHEDULE_BACKUP_FILE_FULL_PATH (scheduleFileSize cfg) r2
  gapFillStep d cfg cfg.HOME_CFG_FILE_FULL_PATH cfg.HOME_CFG_FILE_SIZE r3

/-- Effect of `memset(buf, c, n)` on a buffer. -/
def memset (buf : List Nat) (c : Nat) (n : Nat) : List Nat :=
  List.replicate (min n buf.length) c ++ buf.drop n

/-- Store `data` at the start of a buffer. -/
def bufStore (buf : List Nat) (data : List Nat) : List Nat :=
  data ++ buf.drop data.length

/-- The C string held in a buffer: the bytes before the first NUL. -/
def cstrOf (buf : List Nat) : CStr := buf.takeWhile (fun b => b ≠ 0)

/-- The sequence `a && b` of C on two gateway calls: `b` is evaluated only when `a` is true. -/
def andThen (a : Ret Bool σ) (b : σ → Ret Bool σ) : Ret Bool σ :=
  if a.val = true then
    let r := b a.st
    ⟨r.val, r.st, a.tr ++ r.tr⟩
  else a

/-- The four creations of the format branch, joined by `&&`. -/
def createAllFiles (d : Driver σ) (cfg : Config) (s : σ) : Ret Bool σ :=
  andThen
    (andThen
      (andThen (gdo_fs_create_file d cfg cfg.GDO_USER_INFOR_FULL_PATH (userInforFileSize cfg) s)
        (gdo_fs_create_file d cfg cfg.SCHEDULE_CURRENT_FILE_FULL_PATH (scheduleFileSize cfg)))
      (gdo_fs_create_file d cfg cfg.SCHEDULE_BACKUP_FILE_FULL_PATH (scheduleFileSize cfg)))
    (gdo_fs_create_file d cfg cfg.HOME_CFG_FILE_FULL_PATH cfg.HOME_CFG_FILE_SIZE)

/-- The selective part of `gdo_file_system_init`: the `if (GDO_FS_INIT_TYPE & ...)` statements,
each of which assigns `flag`. -/
def selectiveRecreate (d : Driver σ) (cfg : Config) (s : σ) : Ret Bool σ :=
  let r0 : Ret Bool σ := ⟨true, s, []⟩
  let r1 : Ret Bool σ :=
    if cfg.GDO_FS_INIT_TYPE &&& cfg.GDO_FS_USER_INFO ≠ 0 then
      let c := gdo_fs_create_file d cfg cfg.GDO_USER_INFOR_FULL_PATH (userInforFileSize cfg) r0.st
      ⟨c.val, c.st, r0.tr ++ c.tr⟩
    else r0
  let r2 : Ret Bool σ :=
    if cfg.GDO_FS_INIT_TYPE &&& cfg.GDO_FS_SCHEDULE ≠ 0 then
      let c := andThen
        (gdo_fs_create_file d cfg cfg.SCHEDULE_CURRENT_FILE_FULL_PATH (scheduleFileSize cfg) r1.st)
        (gdo_fs_create_file d cfg cfg.SCHEDULE_BACKUP_FILE_FULL_PATH (scheduleFileSize cfg))
      ⟨c.val, c.st, r1.tr ++ c.tr⟩
    else r1
  if cfg.GDO_FS_INIT_TYPE &&& cfg.GDO_FS_HOME_CFG ≠ 0 then
    let c := gdo_fs_create_file d cfg cfg.HOME_CFG_FILE_FULL_PATH cfg.HOME_CFG_FILE_SIZE r2.st
    ⟨c.val, c.st, r2.tr ++ c.tr⟩
  else r2

/-- The first statement of `gdo_file_system_init`: the flash read of `sizeof(BUILD_TIMESTAMP)`
bytes at the stamp offset into `date`. -/
def initRead (d : Driver σ) (cfg : Config) (s : σ) : Ret (Bool × List Nat) σ :=
  gdo_flash_read_offset d cfg.GDO_BUILD_TIME_OFFSET (cfg.BUILD_TIMESTAMP.length + 1) s

/-- The two statements after the comparison of `gdo_file_system_init`: erase of the 4096-byte
stamp region and write of `BUILD_TIMESTAMP` with its terminator; both results are ignored by
the caller. -/
def stampReset (d : Driver σ) (cfg : Config) (s : σ) : Ret Bool σ :=
  let e := gdo_flash_earse_region d cfg.GDO_BUILD_TIME_OFFSET 4096 s
  let w := gdo_flash_write_offset d cfg.GDO_BUILD_TIME_OFFSET (cfg.BUILD_TIMESTAMP ++ [0]) e.st
  ⟨w.val, w.st, e.tr ++ w.tr⟩

/-- Embedding of `gdo_file_system_init`.  `date` is the local `char date[20]`; its content
before the flash read is indeterminate in C and is overwritten in full by the `memset`
before its only use.  `sizeof(BUILD_TIMESTAMP)` is taken to be at most 20, so that the flash
read stays inside `date`. -/
def gdo_file_system_init (d : Driver σ) (cfg : Config) (s : σ) : Ret Bool σ :=
  let rd := initRead d cfg s
  let date := memset (bufStore (List.replicate 20 0) rd.val.2) 0 20
  if cstrOf date = cfg.BUILD_TIMESTAMP then
    if gdo_disk_init [] ≠ 0 then
      ⟨false, rd.st, rd.tr⟩
    else
      let g := createFileIfNotExist d cfg rd.st
      ⟨g.val, g.st, rd.tr ++ g.tr⟩
  else
    let w := stampReset d cfg rd.st
    let pre := rd.tr ++ w.tr
    if cfg.GDO_FS_INIT_TYPE = cfg.GDO_FS_FORMAT then
      let f := gdo_flash_earse_region d cfg.SPI_FLASH_FS_REGION_OFFSET
        cfg.SPI_FLASH_FS_SECTOR_SIZE w.st
      if f.val = false then
        ⟨false, f.st, pre ++ f.tr⟩
      else if gdo_disk_init [] ≠ 0 then
        ⟨false, f.st, pre ++ f.tr⟩
      else
        let c := createAllFiles d cfg f.st
        ⟨c.val, c.st, pre ++ f.tr ++ c.tr⟩
    else if gdo_disk_init [] ≠ 0 then
      ⟨false, w.st, pre⟩
    else if cfg.GDO_FS_INIT_TYPE = cfg.GDO_FS_NO_CHANGE then
      let g := createFileIfNotExist d cfg w.st
      ⟨g.val, g.st, pre ++ g.tr⟩
    else
      let m := selectiveRecreate d cfg w.st
      if m.val = true then
        let g := createFileIfNotExist d cfg m.st
        ⟨g.val, g.st, pre ++ m.tr ++ g.tr⟩
      else
        ⟨false, m.st, pre ++ m.tr⟩

/-! ## Two concrete drivers

`scriptDriver` replays a list of return codes, one per primitive call, so that any
combination of outcomes can be exercised.  `memDriver` is a small in-memory file system and
flash device with the documented behaviour of the Zephyr calls (open with `FS_O_CREATE`
creates a missing file, truncate sets the length and zero-fills, a size above the capacity
gives `-ENOSPC`, and so on). -/

/-- Next scripted return code (0 once the script is exhausted) and the remaining script. -/
def nextRc (s : List Int) : Int × List Int :=
  match s with
  | [] => (0, [])
  | x :: t => (x, t)

/-- Scripted `fs_readdir`: a negative code is an error, 0 is the end-of-directory sentinel
(empty name), a positive code `x` delivers the one-byte entry name `[x]`. -/
def scriptReaddir (s : List Int) : Int × Dirent × List Int :=
  let x := nextRc s
  if x.1 < 0 then (x.1, ⟨[], false, 0⟩, x.2)
  else if x.1 = 0 then (0, ⟨[], false, 0⟩, x.2)
  else (0, ⟨[x.1.toNat], false, 0⟩, x.2)

/-- Scripted data transfer: return code from the script, as many zero bytes as it announces. -/
def scriptData (s : List Int) : Int × List Nat × List Int :=
  let x := nextRc s
  (x.1, List.replicate x.1.toNat 0, x.2)

/-- A driver whose calls return the codes of a script, in call order. -/
def scriptDriver : Driver (List Int) where
  fs_open := fun s _ _ => nextRc s
  fs_close := fun s => nextRc s
  fs_truncate := fun s _ => nextRc s
  fs_sync := fun s => nextRc s
  fs_read := fun s _ => scriptData s
  fs_write := fun s _ _ => nextRc s
  fs_seek := fun s _ => nextRc s
  fs_unlink := fun s _ => nextRc s
  fs_opendir := fun s _ => nextRc s
  fs_readdir := scriptReaddir
  fs_closedir := fun s => nextRc s
  device_is_ready := fun _ => true
  flash_erase := fun s _ _ => nextRc s
  flash_write := fun s _ _ => nextRc s
  flash_read := fun s _ _ => scriptData s

/-- An open file handle of the in-memory file system. -/
structure OpenFile where
  path : CStr
  pos : Nat
  flags : Nat

/-- State of the in-memory file system and flash device. -/
structure MemFs where
  files : CStr → Option (List Nat)
  names : List CStr
  cur : Option OpenFile
  dir : Option (List CStr)
  capacity : Nat
  flash : Nat → Nat

/-- Replace the content stored under `p`. -/
def MemFs.setFile (s : MemFs) (p : CStr) (c : List Nat) : MemFs :=
  ⟨fun q => if q = p then some c else s.files q, s.names, s.cur, s.dir, s.capacity, s.flash⟩

/-- Replace the open handle. -/
def MemFs.setCur (s : MemFs) (h : Option OpenFile) : MemFs :=
  ⟨s.files, s.names, h, s.dir, s.capacity, s.flash⟩

/-- Replace the directory iterator. -/
def MemFs.setDir (s : MemFs) (l : Option (List CStr)) : MemFs :=
  ⟨s.files, s.names, s.cur, l, s.capacity, s.flash⟩

/-- Replace the flash content. -/
def MemFs.setFlash (s : MemFs) (f : Nat → Nat) : MemFs :=
  ⟨s.files, s.names, s.cur, s.dir, s.capacity, f⟩

def memOpen (s : MemFs) (p : CStr) (flags : Nat) : Int × MemFs :=
  match s.files p with
  | some _ => (0, s.setCur (some ⟨p, 0, flags⟩))
  | none =>
    if flags &&& FS_O_CREATE ≠ 0 then
      (0, MemFs.setCur ⟨fun q => if q = p then some [] else s.files q, s.names ++ [p], s.cur,
        s.dir, s.capacity, s.flash⟩ (some ⟨p, 0, flags⟩))
    else (-ENOENT, s)

def memClose (s : MemFs) : Int × MemFs := (0, s.setCur none)

def memTruncate (s : MemFs) (length : Nat) : Int × MemFs :=
  match s.cur with
  | none => (-EBADF, s)
  | some h =>
    if h.flags &&& FS_O_WRITE = 0 then (-EBADF, s)
    else if s.capacity < length then (-ENOSPC, s)
    else
      match s.files h.path with
      | none => (-ENOENT, s)
      | some c => (0, s.setFile h.path (c.take length ++ List.replicate (length - c.length) 0))

def memSync (s : MemFs) : Int × MemFs :=
  match s.cur with
  | none => (-EBADF, s)
  | some _ => (0, s)

def memRead (s : MemFs) (len : Nat) : Int × List Nat × MemFs :=
  match s.cur with
  | none => (-EBADF, [], s)
  | some h =>
    if h.flags &&& FS_O_READ = 0 then (-EBADF, [], s)
    else
      match s.files h.path with
      | none => (-ENOENT, [], s)
      | some c =>
        let data := (c.drop h.pos).take len
        ((data.length : Int), data, s.setCur (some ⟨h.path, h.pos + data.length, h.flags⟩))

def memWrite (s : MemFs) (data : List Nat) (len : Nat) : Int × MemFs :=
  match s.cur with
  | none => (-EBADF, s)
  | some h =>
    if h.flags &&& FS_O_WRITE = 0 then (-EBADF, s)
    else
      match s.files h.path with
      | none => (-ENOENT, s)
      | some c =>
        let pos := if h.flags &&& FS_O_APPEND ≠ 0 then c.length else h.pos
        if s.capacity < pos + len then (-ENOSPC, s)
        else
          let c0 := c ++ List.replicate (pos - c.length) 0
          let c1 := c0.take pos ++ data.take len ++ c0.drop (pos + len)
          ((len : Int), (s.setFile h.path c1).setCur (some ⟨h.path, pos + len, h.flags⟩))

def memSeek (s : MemFs) (off : Nat) : Int × MemFs :=
  match s.cur with
  | none => (-EBADF, s)
  | some h => (0, s.setCur (some ⟨h.path, off, h.flags⟩))

def memUnlink (s : MemFs) (p : CStr) : Int × MemFs :=
  match s.files p with
  | none => (-ENOENT, s)
  | some _ =>
    (0, ⟨fun q => if q = p then none else s.files q, s.names.filter (fun q => q ≠ p), s.cur,
      s.dir, s.capacity, s.flash⟩)

/-- Entry names of the files stored directly under directory `p`. -/
def memEntries (s : MemFs) (p : CStr) : List CStr :=
  s.names.filterMap (fun q => if (p ++ [47]).isPrefixOf q then some (q.drop (p.length + 1))
    else none)

def memOpendir (s : MemFs) (p : CStr) : Int × MemFs := (0, s.setDir (some (memEntries s p)))

def memReaddir (s : MemFs) : Int × Dirent × MemFs :=
  match s.dir with
  | none => (-EBADF, ⟨[], false, 0⟩, s)
  | some [] => (0, ⟨[], false, 0⟩, s)
  | some (n :: rest) => (0, ⟨n, false, 0⟩, s.setDir (some rest))

def memClosedir (s : MemFs) : Int × MemFs := (0, s.setDir none)

def memFlashErase (s : MemFs) (off : Nat) (size : Nat) : Int × MemFs :=
  (0, s.setFlash (fun i => if off ≤ i ∧ i < off + size then 0xFF else s.flash i))

def memFlashWrite (s : MemFs) (off : Nat) (data : List Nat) : Int × MemFs :=
  (0, s.setFlash (fun i => if off ≤ i ∧ i < off + data.length then data.getD (i - off) 0
    else s.flash i))

def memFlashRead (s : MemFs) (off : Nat) (len : Nat) : Int × List Nat × MemFs :=
  (0, (List.range len).map (fun i => s.flash (off + i)), s)

/-- The in-memory driver. -/
def memDriver : Driver MemFs where
  fs_open := memOpen
  fs_close := memClose
  fs_truncate := memTruncate
  fs_sync := memSync
  fs_read := memRead
  fs_write := memWrite
  fs_seek := memSeek
  fs_unlink := memUnlink
  fs_opendir := memOpendir
  fs_readdir := memReaddir
  fs_closedir := memClosedir
  device_is_ready := fun _ => true
  flash_erase := memFlashErase
  flash_write := memFlashWrite
  flash_read := memFlashRead

/-- An empty in-memory file system with the given per-file capacity and flash content. -/
def memEmpty (capacity : Nat) (flash : Nat → Nat) : MemFs :=
  ⟨fun _ => none, [], none, none, capacity, flash⟩

/-- A sample configuration: paths `/u`, `/c`, `/b`, `/h`, stamp `2024`, path limit 255. -/
def demoCfg : Config where
  GDO_FS_MAX_PATH_LEN := 255
  GDO_USER_INFOR_FULL_PATH := [47, 117]
  SCHEDULE_CURRENT_FILE_FULL_PATH := [47, 99]
  SCHEDULE_BACKUP_FILE_FULL_PATH := [47, 98]
  HOME_CFG_FILE_FULL_PATH := [47, 104]
  GDO_MAX_USER_SUPORT := 2
  GDO_MAX_USER_NAME_LEN := 4
  GDO_ECDH_PUBLIC_KEY_LEN := 4
  GDO_USER_INFOR_LEN := 2
  GDO_USER_NUM_TEMP_KEY := 1
  GDO_USER_TEMP_KEY_LEN := 4
  SCHEDULE_NUM := 3
  sizeof_schedule_data := 4
  HOME_CFG_FILE_SIZE := 8
  BUILD_TIMESTAMP := [50, 48, 50, 52]
  GDO_BUILD_TIME_OFFSET := 0
  SPI_FLASH_FS_REGION_OFFSET := 4096
  SPI_FLASH_FS_SECTOR_SIZE := 8192
  GDO_FS_INIT_TYPE := 255
  GDO_FS_FORMAT := 255
  GDO_FS_NO_CHANGE := 0
  GDO_FS_LOG_FILE := 1
  GDO_FS_USER_INFO := 2
  GDO_FS_SCHEDULE := 4
  GDO_FS_HOME_CFG := 8

/-! ## Trace disciplines -/

/-- Lock discipline of a trace, `depth` acquisitions being outstanding: a release needs an
outstanding acquisition, every other primitive call happens while the lock is held, and
nothing is outstanding at the end. -/
def lockBalanced : Nat → List Event → Bool
  | depth, [] => depth == 0
  | depth, Event.lock :: t => lockBalanced (depth + 1) t
  | depth, Event.unlock :: t => decide (0 < depth) && lockBalanced (depth - 1) t
  | depth, _ :: t => decide (0 < depth) && lockBalanced depth t

/-- Number of lock acquisitions in a trace. -/
def lockCount (t : List Event) : Nat := t.count Event.lock

/-- Number of lock releases in a trace. -/
def unlockCount (t : List Event) : Nat := t.count Event.unlock

/-- Handle discipline of a trace, `isOpen` telling whether a file or directory handle is open:
a successful `fs_open` / `fs_opendir` opens it, `fs_close` / `fs_closedir` closes an open
one, and no handle is open at the end. -/
def handlesClosed : Bool → List Event → Bool
  | isOpen, [] => !isOpen
  | isOpen, Event.fs_open _ _ rc :: t =>
    if rc = 0 then !isOpen && handlesClosed true t else handlesClosed isOpen t
  | isOpen, Event.fs_opendir _ rc :: t =>
    if rc = 0 then !isOpen && handlesClosed true t else handlesClosed isOpen t
  | isOpen, Event.fs_close _ :: t => isOpen && handlesClosed false t
  | isOpen, Event.fs_closedir _ :: t => isOpen && handlesClosed false t
  | isOpen, _ :: t => handlesClosed isOpen t

/-- Whether an event changes stored data: a creating or writing open, truncate, write,
unlink, flash erase or flash write. -/
def Event.mutates : Event → Bool
  | Event.fs_open _ flags _ => decide (flags &&& (FS_O_CREATE ||| FS_O_WRITE) ≠ 0)
  | Event.fs_truncate _ _ => true
  | Event.fs_write _ _ _ => true
  | Event.fs_unlink _ _ => true
  | Event.flash_erase _ _ _ => true
  | Event.flash_write _ _ _ => true
  | _ => false

/-- The four well-known files with their fixed sizes, as passed to `gdo_fs_create_file` by
`gdo_fs_delete_file`, `createFileIfNotExist` and `gdo_file_system_init`. -/
def wellKnownFiles (cfg : Config) : List (CStr × Nat) :=
  [(cfg.GDO_USER_INFOR_FULL_PATH, userInforFileSize cfg),
   (cfg.SCHEDULE_CURRENT_FILE_FULL_PATH, scheduleFileSize cfg),
   (cfg.SCHEDULE_BACKUP_FILE_FULL_PATH, scheduleFileSize cfg),
   (cfg.HOME_CFG_FILE_FULL_PATH, cfg.HOME_CFG_FILE_SIZE)]

/-- Outcome of the `fs_open` call of `gdo_fs_create_file`. -/
def createOpen (d : Driver σ) (p : CStr) (s : σ) : Int × σ :=
  d.fs_open s p (FS_O_CREATE ||| FS_O_RDWR)

/-- Outcome of the `fs_truncate(&file, 0)` call of `gdo_fs_create_file`. -/
def createTrunc0 (d : Driver σ) (p : CStr) (s : σ) : Int × σ :=
  d.fs_truncate (createOpen d p s).2 0

/-- Outcome of the `fs_truncate(&file, size_file)` call of `gdo_fs_create_file`. -/
def createTruncN (d : Driver σ) (p : CStr) (n : Nat) (s : σ) : Int × σ :=
  d.fs_truncate (createTrunc0 d p s).2 n

/-- An in-memory device whose flash holds the bytes `2024\0` at offset 0, which is the
build timestamp of `demoCfg` with its terminator, and an empty file system. -/
def stampedFlash : MemFs :=
  memEmpty 64 (fun i => ([50, 48, 50, 52, 0] : List Nat).getD i 0xFF)

/-- The sample configuration with another initialisation mode. -/
def demoCfgMode (mode : Nat) : Config :=
  ⟨255, [47, 117], [47, 99], [47, 98], [47, 104], 2, 4, 4, 2, 1, 4, 3, 4, 8, [50, 48, 50, 52],
    0, 4096, 8192, mode, 255, 0, 1, 2, 4, 8⟩

/-- An in-memory file system holding one file `p` with content `c`. -/
def memWithFile (capacity : Nat) (p : CStr) (c : List Nat) : MemFs :=
  ⟨fun q => if q = p then some c else none, [p], none, none, capacity, fun _ => 0xFF⟩

/-- The existence check made by an event: path and return code of a read-only open. -/
def existCheckOf : Event → Option (CStr × Int)
  | Event.fs_open p flags rc => if flags = FS_O_READ then some (p, rc) else none
  | _ => none

/-- The existence checks of a trace, in order. -/
def existChecks (t : List Event) : List (CStr × Int) := t.filterMap existCheckOf

/-- The path opened by an event with the flags of `gdo_fs_create_file`. -/
def createOpenOf : Event → Option CStr
  | Event.fs_open p flags _ => if flags = FS_O_CREATE ||| FS_O_RDWR then some p else none
  | _ => none

/-- The paths opened for creation in a trace, in order. -/
def createOpens (t : List Event) : List CStr := t.filterMap createOpenOf

/-- The path of an existence check that reported "no such entry". -/
def reportedMissing (x : CStr × Int) : Option CStr :=
  if x.2 = -ENOENT then some x.1 else none

/-- Whether an event is a failed step of a creation: a failed creating open or a failed
truncate. -/
def Event.failedCreateStep : Event → Bool
  | Event.fs_open _ flags rc => decide (flags = FS_O_CREATE ||| FS_O_RDWR) && decide (rc ≠ 0)
  | Event.fs_truncate _ rc => decide (rc ≠ 0)
  | _ => false

/-- Gap-fill as the specification words it, `for each of the well-known files, if it does not
already exist, create it at its fixed size`, the results joined by a logical AND: a loop over
a table of files. -/
def gapFillSpec (d : Driver σ) (cfg : Config) : List (CStr × Nat) → σ → Ret Bool σ
  | [], s => ⟨true, s, []⟩
  | pn :: rest, s =>
    let e := gdo_fs_file_exist d pn.1 s
    if e.val = FILE_NOT_EXIST then
      let c := gdo_fs_create_file d cfg pn.1 pn.2 e.st
      let r := gapFillSpec d cfg rest c.st
      ⟨c.val && r.val, r.st, e.tr ++ c.tr ++ r.tr⟩
    else
      let r := gapFillSpec d cfg rest e.st
      ⟨r.val, r.st, e.tr ++ r.tr⟩

/-- Unconditional re-creation as the specification words it, `(re)create all the well-known
files at their fixed sizes`, a failing creation aborting the routine: a loop over a table of
files that stops at the first failure. -/
def createSeq (d : Driver σ) (cfg : Config) : List (CStr × Nat) → σ → Ret Bool σ
  | [], s => ⟨true, s, []⟩
  | pn :: rest, s =>
    let c := gdo_fs_create_file d cfg pn.1 pn.2 s
    if c.val = true then
      let r := createSeq d cfg rest c.st
      ⟨r.val, r.st, c.tr ++ r.tr⟩
    else
      ⟨false, c.st, c.tr⟩

/-- Whether no creating open follows a failed creation step in a trace. -/
def noOpenAfterFailure : List Event → Bool
  | [] => true
  | e :: t => (!e.failedCreateStep || (createOpens t).isEmpty) && noOpenAfterFailure t

/-- The erase of the file-system partition in the format branch of `gdo_file_system_init`,
issued after the flash read and the stamp reset. -/
def formatErase (d : Driver σ) (cfg : Config) (s : σ) : Ret Bool σ :=
  gdo_flash_earse_region d cfg.SPI_FLASH_FS_REGION_OFFSET cfg.SPI_FLASH_FS_SECTOR_SIZE
    (stampReset d cfg (initRead d cfg s).st).st

/-- An in-memory device with erased flash (no stamp stored) and an empty file system. -/
def staleFlash : MemFs := memEmpty 64 (fun _ => 0xFF)

/-- Whether the `fs_readdir` issued in state `s` ends the loop of `gdo_fs_delete_all_file`:
a non-zero return code or an entry with an empty name. -/
def loopStops (d : Driver σ) (s : σ) : Bool :=
  decide ((d.fs_readdir s).1 ≠ 0 ∨ (d.fs_readdir s).2.1.name = [])

/-- State after one full iteration of the loop of `gdo_fs_delete_all_file` started in `s`:
the `fs_readdir` and the `fs_unlink` of the entry it delivered. -/
def loopNext (d : Driver σ) (path : CStr) (s : σ) : σ :=
  (d.fs_unlink (d.fs_readdir s).2.2 (path ++ [47] ++ (d.fs_readdir s).2.1.name)).2

/-- State after `k` full iterations of the loop. -/
def loopState (d : Driver σ) (path : CStr) : Nat → σ → σ
  | 0, s => s
  | k + 1, s => loopState d path k (loopNext d path s)

/-- The path removed by an event. -/
def unlinkOf : Event → Option CStr
  | Event.fs_unlink p _ => some p
  | _ => none

/-- The paths passed to `fs_unlink` in a trace, in order. -/
def unlinkedPaths (t : List Event) : List CStr := t.filterMap unlinkOf

/-- The entry name delivered by an event: a successful `fs_readdir` with a non-empty name. -/
def entryOf : Event → Option CStr
  | Event.fs_readdir rc name => if rc = 0 ∧ name ≠ [] then some name else none
  | _ => none

/-- The entry names read in a trace, in order. -/
def entriesRead (t : List Event) : List CStr := t.filterMap entryOf

/-- Whether an event is a directory read. -/
def Event.isReaddir : Event → Bool
  | Event.fs_readdir _ _ => true
  | _ => false

/-- Whether an event opens a directory. -/
def Event.isOpendir : Event → Bool
  | Event.fs_opendir _ _ => true
  | _ => false

/-- An in-memory device with erased flash, an empty file system and room for 16 bytes per
file. -/
def smallFs : MemFs := memEmpty 16 (fun _ => 0xFF)

/-- An in-memory file system whose directory `/d` holds one file, named by `n` letters `a`. -/
def dirWithLongName (n : Nat) : MemFs :=
  memWithFile 64 ([47, 100, 47] ++ List.replicate n 97) [1, 2, 3]

/-! ## Theorems -/

/-- C1 (as stated, refuted): `/x` is none of the four well-known paths of the sample
configuration, yet `gdo_fs_delete_file` returns `true` for it. -/
theorem delete_file_reports_success_for_unknown_path :
    ([47, 120] : CStr) ≠ demoCfg.GDO_USER_INFOR_FULL_PATH ∧
    ([47, 120] : CStr) ≠ demoCfg.SCHEDULE_CURRENT_FILE_FULL_PATH ∧
    ([47, 120] : CStr) ≠ demoCfg.SCHEDULE_BACKUP_FILE_FULL_PATH ∧
    ([47, 120] : CStr) ≠ demoCfg.HOME_CFG_FILE_FULL_PATH ∧
    (gdo_fs_delete_file scriptDriver demoCfg [] [47, 120] []).val = true := by
  decide

/-- C1 (amended): for every path that is none of the four well-known paths,
`gdo_fs_delete_file` returns `true` (the initial value of `flag`), leaves the driver state
unchanged and issues no primitive call other than one lock and one unlock, hence no call
that mutates storage. -/
theorem delete_file_unknown_path (d : Driver σ) (cfg : Config) (disk p : CStr) (s : σ)
    (h1 : p ≠ cfg.GDO_USER_INFOR_FULL_PATH) (h2 : p ≠ cfg.SCHEDULE_CURRENT_FILE_FULL_PATH)
    (h3 : p ≠ cfg.SCHEDULE_BACKUP_FILE_FULL_PATH) (h4 : p ≠ cfg.HOME_CFG_FILE_FULL_PATH) :
    (gdo_fs_delete_file d cfg disk p s).val = true ∧
    (gdo_fs_delete_file d cfg disk p s).st = s ∧
    (gdo_fs_delete_file d cfg disk p s).tr = [Event.lock, Event.unlock] ∧
    ∀ e ∈ (gdo_fs_delete_file d cfg disk p s).tr, e.mutates = false := by
  simp [gdo_fs_delete_file, h1, h2, h3, h4, Event.mutates]

/-- Witness of `delete_file_unknown_path` on the in-memory driver, for the path `/x`. -/
theorem delete_file_unknown_path_witness :
    (gdo_fs_delete_file memDriver demoCfg [] [47, 120] (memEmpty 64 (fun _ => 0))).val = true ∧
    (gdo_fs_delete_file memDriver demoCfg [] [47, 120] (memEmpty 64 (fun _ => 0))).tr
      = [Event.lock, Event.unlock] :=
  have h := delete_file_unknown_path memDriver demoCfg [] [47, 120] (memEmpty 64 (fun _ => 0))
    (by decide) (by decide) (by decide) (by decide)
  ⟨h.1, h.2.2.1⟩

/-- The buffer `date` after `memset(date, 0, 20)` holds the empty C string, whatever the
flash read stored into it. -/
theorem date_after_memset (data : List Nat) :
    cstrOf (memset (bufStore (List.replicate 20 0) data) 0 20) = [] := by
  have hlen : 20 ≤ (bufStore (List.replicate 20 0) data).length := by
    simp [bufStore]; omega
  have hmin : min 20 (bufStore (List.replicate 20 0) data).length = 20 := by omega
  unfold cstrOf memset
  rw [hmin]
  rfl

/-- With a non-empty build timestamp, `gdo_file_system_init` always starts with the flash
read, the erase of the stamp region and the write of the stamp. -/
theorem init_trace_starts_with_reset (d : Driver σ) (cfg : Config) (s : σ)
    (h : cfg.BUILD_TIMESTAMP ≠ []) :
    ∃ rest, (gdo_file_system_init d cfg s).tr =
      (initRead d cfg s).tr ++ (stampReset d cfg (initRead d cfg s).st).tr ++ rest := by
  have hne : ¬ (([] : CStr) = cfg.BUILD_TIMESTAMP) := fun e => h e.symm
  unfold gdo_file_system_init
  simp only [date_after_memset, hne, if_false]
  split_ifs <;> simp

/-- C2 (code defect, evaluated): the flash holds exactly the compiled-in timestamp at the
stamp offset, and still `gdo_file_system_init` erases the stamp region and rewrites the
stamp, whatever the initialisation mode: the first three primitive calls are the flash read,
a flash erase of 4096 bytes and a flash write. -/
theorem init_resets_storage_although_stamp_matches (mode : Nat) :
    (initRead memDriver (demoCfgMode mode) stampedFlash).val
      = (true, (demoCfgMode mode).BUILD_TIMESTAMP ++ [0]) ∧
    (gdo_file_system_init memDriver (demoCfgMode mode) stampedFlash).tr.take 3
      = [Event.flash_read 0 5 0, Event.flash_erase 0 4096 0,
         Event.flash_write 0 [50, 48, 50, 52, 0] 0] := by
  constructor
  · rfl
  · obtain ⟨rest, hr⟩ := init_trace_starts_with_reset memDriver (demoCfgMode mode) stampedFlash
      (by simp [demoCfgMode])
    rw [hr]
    simp [initRead, stampReset, gdo_flash_read_offset, gdo_flash_earse_region,
      gdo_flash_write_offset, demoCfgMode, memDriver, memFlashRead, memFlashErase,
      memFlashWrite]

/-- C3 (as stated, refuted): with the maximum 255 a path of exactly 255 bytes is rejected by
`gdo_fs_create_file` although every underlying call would succeed; no call is issued. -/
theorem create_file_rejects_path_of_maximum_length :
    (List.replicate 255 97 : CStr).length = demoCfg.GDO_FS_MAX_PATH_LEN ∧
    (gdo_fs_create_file scriptDriver demoCfg (List.replicate 255 97) 8 []).val = false ∧
    (gdo_fs_create_file scriptDriver demoCfg (List.replicate 255 97) 8 []).tr = [] := by
  have hl : demoCfg.GDO_FS_MAX_PATH_LEN ≤ (List.replicate 255 97 : CStr).length := by
    rw [List.length_replicate]; decide
  refine ⟨by rw [List.length_replicate]; rfl, ?_, ?_⟩ <;>
    simp only [gdo_fs_create_file, if_pos hl]

/-- C3 (amended): a path whose length is below the maximum `M` (the longest being `M - 1`) is
created successfully whenever the open and both truncates succeed; a path of length `M` or
more (so also `M + 1`) makes `gdo_fs_create_file` return `false` without acquiring the lock
and without any primitive call, the driver state being untouched. -/
theorem create_file_path_length_boundary (d : Driver σ) (cfg : Config) (p : CStr) (n : Nat)
    (s : σ) :
    (p.length < cfg.GDO_FS_MAX_PATH_LEN → (createOpen d p s).1 = 0 →
      (createTrunc0 d p s).1 = 0 → (createTruncN d p n s).1 = 0 →
      (gdo_fs_create_file d cfg p n s).val = true) ∧
    (cfg.GDO_FS_MAX_PATH_LEN ≤ p.length →
      (gdo_fs_create_file d cfg p n s).val = false ∧
      (gdo_fs_create_file d cfg p n s).tr = [] ∧
      (gdo_fs_create_file d cfg p n s).st = s) := by
  constructor
  · intro hl ho h0 h1
    simp only [createOpen, createTrunc0, createTruncN] at ho h0 h1
    simp [gdo_fs_create_file, Nat.not_le.mpr hl, ho, h0, h1]
  · intro hl
    simp [gdo_fs_create_file, hl]

/-- Witness of `create_file_path_length_boundary`: with the maximum 255 and a driver whose
calls all succeed, a path of 254 bytes is created and paths of 255 and 256 bytes are
rejected without any call. -/
theorem create_file_path_length_boundary_witness :
    (gdo_fs_create_file scriptDriver demoCfg (List.replicate 254 97) 8 []).val = true ∧
    (gdo_fs_create_file scriptDriver demoCfg (List.replicate 255 97) 8 []).tr = [] ∧
    (gdo_fs_create_file scriptDriver demoCfg (List.replicate 256 97) 8 []).tr = [] :=
  ⟨(create_file_path_length_boundary scriptDriver demoCfg (List.replicate 254 97) 8 []).1
      (by rw [List.length_replicate]; decide) rfl rfl rfl,
    ((create_file_path_length_boundary scriptDriver demoCfg (List.replicate 255 97) 8 []).2
      (by rw [List.length_replicate]; decide)).2.1,
    ((create_file_path_length_boundary scriptDriver demoCfg (List.replicate 256 97) 8 []).2
      (by rw [List.length_replicate]; decide)).2.1⟩

/-- C4 (code defect, evaluated): `gdo_fs_write_file` with a successful open and a short write
(2 of 4 bytes) releases the lock inside the error branch and once more before returning: one
acquisition, two releases, and `fs_close` is issued after the first release. -/
theorem write_file_short_write_unlocks_twice :
    (gdo_fs_write_file scriptDriver [] [47, 117] [1, 2, 3, 4] 4 [0, 2]).tr
      = [Event.lock, Event.fs_open [47, 117] (FS_O_APPEND ||| FS_O_WRITE) 0,
         Event.fs_write [1, 2, 3, 4] 4 2, Event.unlock, Event.fs_close 0, Event.unlock] ∧
    (gdo_fs_write_file scriptDriver [] [47, 117] [1, 2, 3, 4] 4 [0, 2]).val = -1 ∧
    lockCount (gdo_fs_write_file scriptDriver [] [47, 117] [1, 2, 3, 4] 4 [0, 2]).tr = 1 ∧
    unlockCount (gdo_fs_write_file scriptDriver [] [47, 117] [1, 2, 3, 4] 4 [0, 2]).tr = 2 ∧
    lockBalanced 0 (gdo_fs_write_file scriptDriver [] [47, 117] [1, 2, 3, 4] 4 [0, 2]).tr
      = false := by
  decide

/-- C5 (code defect, evaluated): `gdo_fs_write_file_index` with a successful open and a failing
seek returns without `fs_close`, and `gdo_fs_delete_all_file` with a successful `fs_opendir`
returns without `fs_closedir`: in both traces a handle is still open at the end. -/
theorem write_file_index_and_delete_all_leave_handle_open :
    (gdo_fs_write_file_index scriptDriver [] [47, 117] [1, 2] 2 3 [0, -5]).tr
      = [Event.lock, Event.fs_open [47, 117] FS_O_WRITE 0, Event.fs_seek 3 (-5),
         Event.unlock] ∧
    handlesClosed false (gdo_fs_write_file_index scriptDriver [] [47, 117] [1, 2] 2 3 [0, -5]).tr
      = false ∧
    (gdo_fs_delete_all_file scriptDriver demoCfg 4 [] [47, 100] [0, 120, 0, 0]).map (fun r => r.tr)
      = some [Event.lock, Event.fs_opendir [47, 100] 0, Event.fs_readdir 0 [120],
         Event.fs_unlink [47, 100, 47, 120] 0, Event.fs_readdir 0 [], Event.unlock] ∧
    (gdo_fs_delete_all_file scriptDriver demoCfg 4 [] [47, 100] [0, 120, 0, 0]).map
      (fun r => handlesClosed false r.tr) = some false := by
  decide

/-- C10 (code defect, evaluated): after a successful open, `gdo_fs_read_file` asked for 4 bytes
returns 0, not -1, both when `fs_read` delivers 2 bytes and when it fails with -5, whereas
`gdo_fs_read_file_index` returns -1 in the same two situations. -/
theorem read_file_short_read_returns_zero :
    (gdo_fs_read_file scriptDriver [] [47, 117] 4 [0, 2]).val.1 = 0 ∧
    (gdo_fs_read_file scriptDriver [] [47, 117] 4 [0, -5]).val.1 = 0 ∧
    (gdo_fs_read_file scriptDriver [] [47, 117] 4 [0, 4]).val.1 = 4 ∧
    (gdo_fs_read_file_index scriptDriver [] [47, 117] 4 0 [0, 0, 2]).val.1 = -1 ∧
    (gdo_fs_read_file_index scriptDriver [] [47, 117] 4 0 [0, 0, -5]).val.1 = -1 ∧
    (gdo_fs_read_file_index scriptDriver [] [47, 117] 4 0 [0, 0, 4]).val.1 = 4 := by
  decide

/-- C7: `gdo_fs_create_file` returns `true` exactly when the path is shorter than the maximum
and the open, the truncate to 0 and the truncate to `size_file` all succeed; on success the
calls are lock, open (create | read-write), truncate 0, truncate `size_file`, sync, close,
unlock, in that order; when the truncate to `size_file` fails after a successful truncate to
0 the only later call is `fs_close` (nothing is rolled back, the last successful change is the
truncate to 0); on the in-memory file system a size above the capacity therefore leaves the
file present with length zero. -/
theorem create_file_contract (d : Driver σ) (cfg : Config) (p : CStr) (n : Nat) (s : σ) :
    ((gdo_fs_create_file d cfg p n s).val = true ↔
      (p.length < cfg.GDO_FS_MAX_PATH_LEN ∧ (createOpen d p s).1 = 0 ∧
        (createTrunc0 d p s).1 = 0 ∧ (createTruncN d p n s).1 = 0)) ∧
    ((gdo_fs_create_file d cfg p n s).val = true →
      (gdo_fs_create_file d cfg p n s).tr =
        [Event.lock, Event.fs_open p (FS_O_CREATE ||| FS_O_RDWR) 0, Event.fs_truncate 0 0,
         Event.fs_truncate n 0, Event.fs_sync (d.fs_sync (createTruncN d p n s).2).1,
         Event.fs_close (d.fs_close (d.fs_sync (createTruncN d p n s).2).2).1, Event.unlock] ∧
      (gdo_fs_create_file d cfg p n s).st
        = (d.fs_close (d.fs_sync (createTruncN d p n s).2).2).2) ∧
    (p.length < cfg.GDO_FS_MAX_PATH_LEN → (createOpen d p s).1 = 0 →
      (createTrunc0 d p s).1 = 0 → (createTruncN d p n s).1 ≠ 0 →
      (gdo_fs_create_file d cfg p n s).val = false ∧
      (gdo_fs_create_file d cfg p n s).tr =
        [Event.lock, Event.fs_open p (FS_O_CREATE ||| FS_O_RDWR) 0, Event.fs_truncate 0 0,
         Event.fs_truncate n (createTruncN d p n s).1,
         Event.fs_close (d.fs_close (createTruncN d p n s).2).1, Event.unlock] ∧
      (gdo_fs_create_file d cfg p n s).st = (d.fs_close (createTruncN d p n s).2).2) ∧
    (∀ m : MemFs, p.length < cfg.GDO_FS_MAX_PATH_LEN → m.capacity < n →
      (gdo_fs_create_file memDriver cfg p n m).val = false ∧
      (gdo_fs_create_file memDriver cfg p n m).st.files p = some []) := by
  refine ⟨?_, ?_, ?_, ?_⟩
  · unfold gdo_fs_create_file createTruncN createTrunc0 createOpen
    by_cases hl : cfg.GDO_FS_MAX_PATH_LEN ≤ p.length
    · simp [hl]
    · by_cases ho : (d.fs_open s p (FS_O_CREATE ||| FS_O_RDWR)).1 = 0
      · by_cases h0 : (d.fs_truncate (d.fs_open s p (FS_O_CREATE ||| FS_O_RDWR)).2 0).1 = 0
        · by_cases h1 : (d.fs_truncate
              (d.fs_truncate (d.fs_open s p (FS_O_CREATE ||| FS_O_RDWR)).2 0).2 n).1 = 0
          · simp [hl, ho, h0, h1, Nat.lt_of_not_le hl]
          · simp [hl, ho, h0, h1]
        · simp [hl, ho, h0]
      · simp [hl, ho]
  · unfold gdo_fs_create_file createTruncN createTrunc0 createOpen
    by_cases hl : cfg.GDO_FS_MAX_PATH_LEN ≤ p.length
    · simp [hl]
    · by_cases ho : (d.fs_open s p (FS_O_CREATE ||| FS_O_RDWR)).1 = 0
      · by_cases h0 : (d.fs_truncate (d.fs_open s p (FS_O_CREATE ||| FS_O_RDWR)).2 0).1 = 0
        · by_cases h1 : (d.fs_truncate
              (d.fs_truncate (d.fs_open s p (FS_O_CREATE ||| FS_O_RDWR)).2 0).2 n).1 = 0
          · simp [hl, ho, h0, h1]
          · simp [hl, ho, h0, h1]
        · simp [hl, ho, h0]
      · simp [hl, ho]
  · intro hl ho h0 h1
    simp only [createOpen, createTrunc0, createTruncN] at ho h0 h1 ⊢
    simp [gdo_fs_create_file, Nat.not_le.mpr hl, ho, h0, h1]
  · intro m hl hc
    unfold gdo_fs_create_file
    cases hf : m.files p <;>
      simp [Nat.not_le.mpr hl, memDriver, memOpen, memTruncate, memClose, MemFs.setCur,
        MemFs.setFile, hf, hc, FS_O_CREATE, FS_O_RDWR, FS_O_READ, FS_O_WRITE, ENOSPC]

/-- Witness of `create_file_contract`: a failing truncate to the size after a successful
truncate to 0 (scripted, and on the in-memory file system with capacity 4 and size 8), and a
run in which every call succeeds. -/
theorem create_file_contract_witness :
    (gdo_fs_create_file scriptDriver demoCfg [47, 117] 8 [0, 0, -28]).val = false ∧
    (gdo_fs_create_file memDriver demoCfg [47, 117] 8 (memEmpty 4 (fun _ => 0))).st.files
      [47, 117] = some [] ∧
    (gdo_fs_create_file scriptDriver demoCfg [47, 117] 8 []).val = true :=
  ⟨((create_file_contract scriptDriver demoCfg [47, 117] 8 [0, 0, -28]).2.2.1
      (by decide) rfl rfl (by decide)).1,
    ((create_file_contract scriptDriver demoCfg [47, 117] 8 []).2.2.2
      (memEmpty 4 (fun _ => 0)) (by decide) (by decide)).2,
    (create_file_contract scriptDriver demoCfg [47, 117] 8 []).1.mpr
      ⟨by decide, rfl, rfl, rfl⟩⟩

/-- Behaviour of `gdo_fs_create_file` on the in-memory file system when the path is short
enough and the size fits: it succeeds and the file holds `n` zero bytes afterwards, every
other file being unchanged. -/
theorem create_file_on_mem (cfg : Config) (p : CStr) (n : Nat) (m : MemFs)
    (hl : p.length < cfg.GDO_FS_MAX_PATH_LEN) (hc : n ≤ m.capacity) :
    (gdo_fs_create_file memDriver cfg p n m).val = true ∧
    (gdo_fs_create_file memDriver cfg p n m).st.files p = some (List.replicate n 0) ∧
    ∀ q, q ≠ p → (gdo_fs_create_file memDriver cfg p n m).st.files q = m.files q := by
  unfold gdo_fs_create_file
  refine ⟨?_, ?_, ?_⟩
  · cases hf : m.files p <;>
      simp [Nat.not_le.mpr hl, memDriver, memOpen, memTruncate, memClose, memSync,
        MemFs.setCur, MemFs.setFile, hf, Nat.not_lt.mpr hc, FS_O_CREATE, FS_O_RDWR, FS_O_READ,
        FS_O_WRITE]
  · cases hf : m.files p <;>
      simp [Nat.not_le.mpr hl, memDriver, memOpen, memTruncate, memClose, memSync,
        MemFs.setCur, MemFs.setFile, hf, Nat.not_lt.mpr hc, FS_O_CREATE, FS_O_RDWR, FS_O_READ,
        FS_O_WRITE]
  · intro q hq
    cases hf : m.files p <;>
      simp [Nat.not_le.mpr hl, memDriver, memOpen, memTruncate, memClose, memSync,
        MemFs.setCur, MemFs.setFile, hf, Nat.not_lt.mpr hc, FS_O_CREATE, FS_O_RDWR, FS_O_READ,
        FS_O_WRITE, hq]

/-- C6: for each of the four well-known paths (pairwise distinct), `gdo_fs_delete_file` is one
call of `gdo_fs_create_file` on that path with its fixed size, between a lock and an unlock,
and returns that call's result.  The fixed sizes are, in the 32-bit `size_t` of the target,
`GDO_MAX_USER_SUPORT * sizeof(gdo_user_infor)` for the user table (the structure has only
`uint8_t` members: name, public key, role, status, information and temporary keys),
`SCHEDULE_NUM * sizeof(struct schedule_data)` for both schedule files and
`HOME_CFG_FILE_SIZE` for the home configuration.  On the in-memory file system, when the path
is short enough and the size fits, the result is `true` and the file afterwards holds
exactly that number of (zero) bytes, whatever it held before. -/
theorem delete_file_well_known_recreates (d : Driver σ) (cfg : Config) (disk : CStr) (s : σ)
    (p : CStr) (n : Nat)
    (hd : [cfg.GDO_USER_INFOR_FULL_PATH, cfg.SCHEDULE_CURRENT_FILE_FULL_PATH,
      cfg.SCHEDULE_BACKUP_FILE_FULL_PATH, cfg.HOME_CFG_FILE_FULL_PATH].Nodup)
    (hp : (p = cfg.GDO_USER_INFOR_FULL_PATH ∧
        n = (cfg.GDO_MAX_USER_SUPORT *
          (cfg.GDO_MAX_USER_NAME_LEN + cfg.GDO_ECDH_PUBLIC_KEY_LEN + 1 + 1
            + cfg.GDO_USER_INFOR_LEN + cfg.GDO_USER_NUM_TEMP_KEY * cfg.GDO_USER_TEMP_KEY_LEN))
          % 2 ^ 32) ∨
      (p = cfg.SCHEDULE_CURRENT_FILE_FULL_PATH ∧
        n = (cfg.SCHEDULE_NUM * cfg.sizeof_schedule_data) % 2 ^ 32) ∨
      (p = cfg.SCHEDULE_BACKUP_FILE_FULL_PATH ∧
        n = (cfg.SCHEDULE_NUM * cfg.sizeof_schedule_data) % 2 ^ 32) ∨
      (p = cfg.HOME_CFG_FILE_FULL_PATH ∧ n = cfg.HOME_CFG_FILE_SIZE)) :
    (gdo_fs_delete_file d cfg disk p s).val = (gdo_fs_create_file d cfg p n s).val ∧
    (gdo_fs_delete_file d cfg disk p s).st = (gdo_fs_create_file d cfg p n s).st ∧
    (gdo_fs_delete_file d cfg disk p s).tr
      = Event.lock :: (gdo_fs_create_file d cfg p n s).tr ++ [Event.unlock] ∧
    (∀ m : MemFs, p.length < cfg.GDO_FS_MAX_PATH_LEN → n ≤ m.capacity →
      (gdo_fs_delete_file memDriver cfg disk p m).val = true ∧
      (gdo_fs_delete_file memDriver cfg disk p m).st.files p = some (List.replicate n 0)) := by
  have key : ∀ (τ : Type) (dd : Driver τ) (t : τ),
      gdo_fs_delete_file dd cfg disk p t =
        ⟨(gdo_fs_create_file dd cfg p n t).val, (gdo_fs_create_file dd cfg p n t).st,
          Event.lock :: (gdo_fs_create_file dd cfg p n t).tr ++ [Event.unlock]⟩ := by
    intro τ dd t
    simp only [List.nodup_cons, List.mem_cons, List.mem_singleton,
      List.not_mem_nil, not_or, not_false_eq_true, List.nodup_nil, and_true, or_false] at hd
    obtain ⟨⟨h12, h13, h14⟩, ⟨h23, h24⟩, h34⟩ := hd
    rcases hp with ⟨rfl, rfl⟩ | ⟨rfl, rfl⟩ | ⟨rfl, rfl⟩ | ⟨rfl, rfl⟩
    · simp [gdo_fs_delete_file, h12, h13, h14, userInforFileSize, sizeof_gdo_user_infor]
    · simp [gdo_fs_delete_file, Ne.symm h12, h23, h24, scheduleFileSize]
    · simp [gdo_fs_delete_file, Ne.symm h13, Ne.symm h23, h34, scheduleFileSize]
    · simp [gdo_fs_delete_file, Ne.symm h14, Ne.symm h24, Ne.symm h34]
  refine ⟨by rw [key], by rw [key], by rw [key], ?_⟩
  intro m hl hc
  rw [key]
  exact ⟨(create_file_on_mem cfg p n m hl hc).1, (create_file_on_mem cfg p n m hl hc).2.1⟩

/-- Witness of `delete_file_well_known_recreates` on the sample configuration (2 users of
4 + 4 + 1 + 1 + 2 + 1 * 4 = 16 bytes, 3 schedules of 4 bytes, home configuration of 8 bytes):
deleting each well-known file, which holds three bytes, leaves `/u` with 32 zero bytes,
`/c` and `/b` with 12 and `/h` with 8. -/
theorem delete_file_well_known_recreates_witness :
    [demoCfg.GDO_USER_INFOR_FULL_PATH, demoCfg.SCHEDULE_CURRENT_FILE_FULL_PATH,
      demoCfg.SCHEDULE_BACKUP_FILE_FULL_PATH, demoCfg.HOME_CFG_FILE_FULL_PATH].Nodup ∧
    (gdo_fs_delete_file memDriver demoCfg [] [47, 117]
      (memWithFile 64 [47, 117] [1, 2, 3])).st.files [47, 117] = some (List.replicate 32 0) ∧
    (gdo_fs_delete_file memDriver demoCfg [] [47, 99]
      (memWithFile 64 [47, 99] [1, 2, 3])).st.files [47, 99] = some (List.replicate 12 0) ∧
    (gdo_fs_delete_file memDriver demoCfg [] [47, 98]
      (memWithFile 64 [47, 98] [1, 2, 3])).st.files [47, 98] = some (List.replicate 12 0) ∧
    (gdo_fs_delete_file memDriver demoCfg [] [47, 104]
      (memWithFile 64 [47, 104] [1, 2, 3])).st.files [47, 104] = some (List.replicate 8 0) :=
  ⟨by decide,
    ((delete_file_well_known_recreates memDriver demoCfg [] (memWithFile 64 [47, 117] [1, 2, 3])
      [47, 117] 32 (by decide) (Or.inl ⟨rfl, by decide⟩)).2.2.2
        (memWithFile 64 [47, 117] [1, 2, 3]) (by decide) (by decide)).2,
    ((delete_file_well_known_recreates memDriver demoCfg [] (memWithFile 64 [47, 99] [1, 2, 3])
      [47, 99] 12 (by decide) (Or.inr (Or.inl ⟨rfl, by decide⟩))).2.2.2
        (memWithFile 64 [47, 99] [1, 2, 3]) (by decide) (by decide)).2,
    ((delete_file_well_known_recreates memDriver demoCfg [] (memWithFile 64 [47, 98] [1, 2, 3])
      [47, 98] 12 (by decide) (Or.inr (Or.inr (Or.inl ⟨rfl, by decide⟩)))).2.2.2
        (memWithFile 64 [47, 98] [1, 2, 3]) (by decide) (by decide)).2,
    ((delete_file_well_known_recreates memDriver demoCfg [] (memWithFile 64 [47, 104] [1, 2, 3])
      [47, 104] 8 (by decide) (Or.inr (Or.inr (Or.inr ⟨rfl, rfl⟩)))).2.2.2
        (memWithFile 64 [47, 104] [1, 2, 3]) (by decide) (by decide)).2⟩

/-! ### Gap-fill -/

theorem file_exist_trace (d : Driver σ) (p : CStr) (s : σ) :
    existChecks (gdo_fs_file_exist d p s).tr = [(p, (d.fs_open s p FS_O_READ).1)] ∧
    createOpens (gdo_fs_file_exist d p s).tr = [] ∧
    (∀ e ∈ (gdo_fs_file_exist d p s).tr, e.failedCreateStep = false ∧ e.mutates = false) ∧
    ((gdo_fs_file_exist d p s).val = FILE_NOT_EXIST ↔ (d.fs_open s p FS_O_READ).1 = -ENOENT) := by
  unfold gdo_fs_file_exist
  by_cases h0 : (d.fs_open s p FS_O_READ).1 = 0
  · simp only [if_pos h0]
    simp [existChecks, existCheckOf, createOpens, createOpenOf, Event.failedCreateStep,
      Event.mutates, FS_O_READ, FS_O_CREATE, FS_O_RDWR, FS_O_WRITE, FILE_EXIST, FILE_NOT_EXIST,
      ENOENT]
    have h0a : (d.fs_open s p 1).1 = 0 := h0
    omega
  · by_cases h1 : (d.fs_open s p FS_O_READ).1 = -ENOENT
    · simp only [if_neg h0, if_pos h1]
      simp [existChecks, existCheckOf, createOpens, createOpenOf,
        Event.failedCreateStep, Event.mutates, FS_O_READ, FS_O_CREATE, FS_O_RDWR, FS_O_WRITE,
        FILE_EXIST, FILE_NOT_EXIST, ENOENT]
      exact h1
    · simp only [if_neg h0, if_neg h1]
      simp [h1, existChecks, existCheckOf, createOpens, createOpenOf,
        Event.failedCreateStep, Event.mutates, FS_O_READ, FS_O_CREATE, FS_O_RDWR, FS_O_WRITE,
        FILE_EXIST, FILE_NOT_EXIST, FILE_ERROR, ENOENT]
      exact h1

theorem create_file_trace (d : Driver σ) (cfg : Config) (p : CStr) (n : Nat) (s : σ)
    (hl : p.length < cfg.GDO_FS_MAX_PATH_LEN) :
    existChecks (gdo_fs_create_file d cfg p n s).tr = [] ∧
    createOpens (gdo_fs_create_file d cfg p n s).tr = [p] ∧
    ((gdo_fs_create_file d cfg p n s).val = true ↔
      ∀ e ∈ (gdo_fs_create_file d cfg p n s).tr, e.failedCreateStep = false) := by
  unfold gdo_fs_create_file
  simp only [if_neg (Nat.not_le.mpr hl)]
  by_cases ho : (d.fs_open s p (FS_O_CREATE ||| FS_O_RDWR)).1 = 0
  · by_cases h0 : (d.fs_truncate (d.fs_open s p (FS_O_CREATE ||| FS_O_RDWR)).2 0).1 = 0
    · by_cases h1 : (d.fs_truncate
          (d.fs_truncate (d.fs_open s p (FS_O_CREATE ||| FS_O_RDWR)).2 0).2 n).1 = 0
      · simp only [ho, h0, h1, ne_eq, not_true_eq_false, if_false]
        simp [existChecks, existCheckOf, createOpens,
          createOpenOf, Event.failedCreateStep, FS_O_READ, FS_O_CREATE, FS_O_RDWR, FS_O_WRITE]
      · simp only [ho, h0, h1, ne_eq, not_true_eq_false, not_false_eq_true, if_false, if_true]
        simp [existChecks, existCheckOf, createOpens,
          createOpenOf, Event.failedCreateStep, FS_O_READ, FS_O_CREATE, FS_O_RDWR, FS_O_WRITE]
        exact h1
    · simp only [ho, h0, ne_eq, not_true_eq_false, not_false_eq_true, if_false, if_true]
      simp [existChecks, existCheckOf, createOpens,
        createOpenOf, Event.failedCreateStep, FS_O_READ, FS_O_CREATE, FS_O_RDWR, FS_O_WRITE]
      exact h0
  · simp only [ho, ne_eq, not_false_eq_true, if_true]
    simp [existChecks, existCheckOf, createOpens,
      createOpenOf, Event.failedCreateStep, FS_O_READ, FS_O_CREATE, FS_O_RDWR, FS_O_WRITE]
    exact ho

theorem existChecks_append (a b : List Event) :
    existChecks (a ++ b) = existChecks a ++ existChecks b := by
  simp [existChecks]

theorem createOpens_append (a b : List Event) :
    createOpens (a ++ b) = createOpens a ++ createOpens b := by
  simp [createOpens]

theorem create_file_no_exist_check (d : Driver σ) (cfg : Config) (p : CStr) (n : Nat) (s : σ) :
    existChecks (gdo_fs_create_file d cfg p n s).tr = [] := by
  by_cases hl : p.length < cfg.GDO_FS_MAX_PATH_LEN
  · exact (create_file_trace d cfg p n s hl).1
  · simp [gdo_fs_create_file, Nat.not_lt.mp hl, existChecks]

/-- The loop checks every file of its table, in order, and when no check reports a missing
file it succeeds without any call that mutates storage. -/
theorem gapFillSpec_checks (d : Driver σ) (cfg : Config) (l : List (CStr × Nat)) :
    ∀ s : σ, (existChecks (gapFillSpec d cfg l s).tr).map Prod.fst = l.map Prod.fst ∧
      ((∀ x ∈ existChecks (gapFillSpec d cfg l s).tr, x.2 ≠ -ENOENT) →
        (gapFillSpec d cfg l s).val = true ∧
        ∀ e ∈ (gapFillSpec d cfg l s).tr, e.mutates = false) := by
  induction l with
  | nil => intro s; simp [gapFillSpec, existChecks]
  | cons pn rest ih =>
    intro s
    obtain ⟨hx, -, hm, hv⟩ := file_exist_trace d pn.1 s
    unfold gapFillSpec
    by_cases he : (gdo_fs_file_exist d pn.1 s).val = FILE_NOT_EXIST
    · simp only [if_pos he, existChecks_append, hx, create_file_no_exist_check]
      refine ⟨by simp [(ih _).1], ?_⟩
      intro hall
      exact absurd (hv.mp he) (hall (pn.1, _) (by simp))
    · simp only [if_neg he, existChecks_append, hx]
      refine ⟨by simp [(ih _).1], ?_⟩
      intro hall
      have hrest := (ih (gdo_fs_file_exist d pn.1 s).st).2
        (fun x hxm => hall x (by simp [hxm]))
      refine ⟨hrest.1, ?_⟩
      intro e hmem
      rcases List.mem_append.mp hmem with h | h
      · exact (hm e h).2
      · exact hrest.2 e h

/-- The loop opens for creation exactly the files whose check reported a missing file, and
succeeds exactly when no creation step failed, provided that every path of the table is
shorter than the maximum. -/
theorem gapFillSpec_creations (d : Driver σ) (cfg : Config) (l : List (CStr × Nat))
    (hl : ∀ pn ∈ l, pn.1.length < cfg.GDO_FS_MAX_PATH_LEN) :
    ∀ s : σ, createOpens (gapFillSpec d cfg l s).tr
        = (existChecks (gapFillSpec d cfg l s).tr).filterMap reportedMissing ∧
      ((gapFillSpec d cfg l s).val = true ↔
        ∀ e ∈ (gapFillSpec d cfg l s).tr, e.failedCreateStep = false) := by
  induction l with
  | nil => intro s; simp [gapFillSpec, existChecks, createOpens]
  | cons pn rest ih =>
    intro s
    have ih2 := ih (fun q hq => hl q (List.mem_cons_of_mem _ hq))
    have hpn := hl pn (List.mem_cons_self _ _)
    obtain ⟨hx, hco, hm, hv⟩ := file_exist_trace d pn.1 s
    unfold gapFillSpec
    by_cases he : (gdo_fs_file_exist d pn.1 s).val = FILE_NOT_EXIST
    · obtain ⟨hcx, hcc, hcv⟩ :=
        create_file_trace d cfg pn.1 pn.2 (gdo_fs_file_exist d pn.1 s).st hpn
      simp only [if_pos he, existChecks_append, createOpens_append, hx, hco, hcx, hcc]
      constructor
      · simp [reportedMissing, hv.mp he, (ih2 _).1]
      · simp only [Bool.and_eq_true, hcv, (ih2 _).2, List.mem_append]
        constructor
        · rintro ⟨h1, h2⟩ e ((h | h) | h)
          · exact (hm e h).1
          · exact h1 e h
          · exact h2 e h
        · intro h
          exact ⟨fun e hh => h e (Or.inl (Or.inr hh)), fun e hh => h e (Or.inr hh)⟩
    · simp only [if_neg he, existChecks_append, createOpens_append, hx, hco]
      constructor
      · have hne : ¬ (d.fs_open s pn.1 FS_O_READ).1 = -ENOENT := fun h => he (hv.mpr h)
        simp [reportedMissing, hne, (ih2 _).1]
      · simp only [(ih2 _).2, List.mem_append]
        constructor
        · rintro h e (hh | hh)
          · exact (hm e hh).1
          · exact h e hh
        · intro h e hh
          exact h e (Or.inr hh)

/-- The four `if` statements of `createFileIfNotExist` are the gap-fill loop over the table of
the four well-known files. -/
theorem createFileIfNotExist_eq_gapFillSpec (d : Driver σ) (cfg : Config) (s : σ) :
    createFileIfNotExist d cfg s = gapFillSpec d cfg (wellKnownFiles cfg) s := by
  unfold createFileIfNotExist wellKnownFiles
  simp only [gapFillSpec, gapFillStep]
  split_ifs <;> simp [Bool.and_assoc]

/-- C8: `createFileIfNotExist` is the gap-fill loop over the four well-known files with their
fixed sizes (a creation is attempted exactly when the check of that file reports
`FILE_NOT_EXIST`, the result is the AND of the attempted creations); all four files are
checked, in order, whatever the earlier outcomes; when the four paths are shorter than the
maximum, the files opened for creation are exactly those whose check reported a missing
file, and the result is `true` exactly when no step of an attempted creation failed; when no
check reports a missing file the result is `true` and no call mutates storage. -/
theorem gap_fill_contract (d : Driver σ) (cfg : Config) (s : σ) :
    createFileIfNotExist d cfg s = gapFillSpec d cfg (wellKnownFiles cfg) s ∧
    (existChecks (createFileIfNotExist d cfg s).tr).map Prod.fst
      = [cfg.GDO_USER_INFOR_FULL_PATH, cfg.SCHEDULE_CURRENT_FILE_FULL_PATH,
         cfg.SCHEDULE_BACKUP_FILE_FULL_PATH, cfg.HOME_CFG_FILE_FULL_PATH] ∧
    ((∀ pn ∈ wellKnownFiles cfg, pn.1.length < cfg.GDO_FS_MAX_PATH_LEN) →
      createOpens (createFileIfNotExist d cfg s).tr
        = (existChecks (createFileIfNotExist d cfg s).tr).filterMap reportedMissing ∧
      ((createFileIfNotExist d cfg s).val = true ↔
        ∀ e ∈ (createFileIfNotExist d cfg s).tr, e.failedCreateStep = false)) ∧
    ((∀ x ∈ existChecks (createFileIfNotExist d cfg s).tr, x.2 ≠ -ENOENT) →
      (createFileIfNotExist d cfg s).val = true ∧
      ∀ e ∈ (createFileIfNotExist d cfg s).tr, e.mutates = false) := by
  rw [createFileIfNotExist_eq_gapFillSpec]
  refine ⟨rfl, ?_, ?_, ?_⟩
  · rw [(gapFillSpec_checks d cfg (wellKnownFiles cfg) s).1]
    rfl
  · intro hl
    exact gapFillSpec_creations d cfg (wellKnownFiles cfg) hl s
  · exact (gapFillSpec_checks d cfg (wellKnownFiles cfg) s).2

/-- Witness of `gap_fill_contract` on a scripted driver: `/u` exists, `/c` is missing and is
created, the check of `/b` fails with -5, `/h` is missing and its creating open fails; and on
a driver whose calls all succeed. -/
theorem gap_fill_contract_witness :
    (createOpens (createFileIfNotExist scriptDriver demoCfg
        [0, 0, -2, 0, 0, 0, 0, 0, -5, -2, -28]).tr
      = (existChecks (createFileIfNotExist scriptDriver demoCfg
        [0, 0, -2, 0, 0, 0, 0, 0, -5, -2, -28]).tr).filterMap reportedMissing) ∧
    ((createFileIfNotExist scriptDriver demoCfg []).val = true ∧
      ∀ e ∈ (createFileIfNotExist scriptDriver demoCfg []).tr, e.mutates = false) :=
  ⟨((gap_fill_contract scriptDriver demoCfg [0, 0, -2, 0, 0, 0, 0, 0, -5, -2, -28]).2.2.1
      (by decide)).1,
    (gap_fill_contract scriptDriver demoCfg []).2.2.2 (by decide)⟩

/-! ### Format mode -/

/-- The `&&` chain of the format branch is the creation loop over the table of the four
well-known files. -/
theorem andThen_eq (a : Ret Bool σ) (b : σ → Ret Bool σ) :
    andThen a b = if a.val = true then ⟨(b a.st).val, (b a.st).st, a.tr ++ (b a.st).tr⟩
      else ⟨false, a.st, a.tr⟩ := by
  unfold andThen
  split_ifs with h
  · rfl
  · cases a
    simp_all

theorem createAllFiles_eq_createSeq (d : Driver σ) (cfg : Config) (s : σ) :
    createAllFiles d cfg s = createSeq d cfg (wellKnownFiles cfg) s := by
  unfold createAllFiles wellKnownFiles
  simp only [createSeq, andThen_eq]
  split_ifs <;> simp_all

theorem create_file_noOpenAfterFailure (d : Driver σ) (cfg : Config) (p : CStr) (n : Nat)
    (s : σ) : noOpenAfterFailure (gdo_fs_create_file d cfg p n s).tr = true := by
  unfold gdo_fs_create_file
  by_cases hl : cfg.GDO_FS_MAX_PATH_LEN ≤ p.length
  · simp [hl, noOpenAfterFailure]
  · simp only [if_neg hl]
    by_cases ho : (d.fs_open s p (FS_O_CREATE ||| FS_O_RDWR)).1 = 0
    · by_cases h0 : (d.fs_truncate (d.fs_open s p (FS_O_CREATE ||| FS_O_RDWR)).2 0).1 = 0
      · by_cases h1 : (d.fs_truncate
            (d.fs_truncate (d.fs_open s p (FS_O_CREATE ||| FS_O_RDWR)).2 0).2 n).1 = 0
        · simp only [ho, h0, h1, ne_eq, not_true_eq_false, if_false]
          simp [noOpenAfterFailure, createOpens, createOpenOf, Event.failedCreateStep]
        · simp only [ho, h0, h1, ne_eq, not_true_eq_false, not_false_eq_true, if_false,
            if_true]
          simp [noOpenAfterFailure, createOpens, createOpenOf, Event.failedCreateStep]
      · simp only [ho, h0, ne_eq, not_true_eq_false, not_false_eq_true, if_false, if_true]
        simp [noOpenAfterFailure, createOpens, createOpenOf, Event.failedCreateStep]
    · simp only [ho, ne_eq, not_false_eq_true, if_true]
      simp [noOpenAfterFailure, createOpens, createOpenOf, Event.failedCreateStep]

theorem noOpenAfterFailure_append (a b : List Event) (ha : noOpenAfterFailure a = true)
    (hb : noOpenAfterFailure b = true)
    (hab : (∀ e ∈ a, e.failedCreateStep = false) ∨ createOpens b = []) :
    noOpenAfterFailure (a ++ b) = true := by
  induction a with
  | nil => simpa using hb
  | cons e t ih =>
    simp only [noOpenAfterFailure, Bool.and_eq_true, Bool.or_eq_true, Bool.not_eq_true_eq_eq_false,
      List.isEmpty_iff] at ha
    have hab2 : (∀ x ∈ t, x.failedCreateStep = false) ∨ createOpens b = [] := by
      rcases hab with h | h
      · exact Or.inl (fun x hx => h x (List.mem_cons_of_mem _ hx))
      · exact Or.inr h
    simp only [List.cons_append, noOpenAfterFailure, Bool.and_eq_true, Bool.or_eq_true,
      Bool.not_eq_true_eq_eq_false, List.isEmpty_iff, List.append_eq, createOpens_append,
      List.append_eq_nil]
    refine ⟨?_, ih ha.2 hab2⟩
    rcases hab with h | h
    · exact Or.inl (h e (List.mem_cons_self _ _))
    · rcases ha.1 with h1 | h1
      · exact Or.inl h1
      · exact Or.inr ⟨h1, h⟩

/-- The creation loop makes no existence check; when every path of its table is shorter than
the maximum it opens for creation a prefix of the table, in order, succeeds exactly when the
whole table was opened and no creation step failed, and never opens a file after a failed
step. -/
theorem createSeq_props (d : Driver σ) (cfg : Config) (l : List (CStr × Nat))
    (hl : ∀ pn ∈ l, pn.1.length < cfg.GDO_FS_MAX_PATH_LEN) :
    ∀ s : σ, existChecks (createSeq d cfg l s).tr = [] ∧
      createOpens (createSeq d cfg l s).tr <+: l.map Prod.fst ∧
      ((createSeq d cfg l s).val = true ↔
        (createOpens (createSeq d cfg l s).tr = l.map Prod.fst ∧
          ∀ e ∈ (createSeq d cfg l s).tr, e.failedCreateStep = false)) ∧
      noOpenAfterFailure (createSeq d cfg l s).tr = true := by
  induction l with
  | nil => intro s; simp [createSeq, existChecks, createOpens, noOpenAfterFailure]
  | cons pn rest ih =>
    intro s
    have ih2 := ih (fun q hq => hl q (List.mem_cons_of_mem _ hq))
    obtain ⟨hcx, hcc, hcv⟩ := create_file_trace d cfg pn.1 pn.2 s (hl pn (List.mem_cons_self _ _))
    have hcn := create_file_noOpenAfterFailure d cfg pn.1 pn.2 s
    unfold createSeq
    by_cases hc : (gdo_fs_create_file d cfg pn.1 pn.2 s).val = true
    · obtain ⟨ix, ip, iv, inf⟩ := ih2 (gdo_fs_create_file d cfg pn.1 pn.2 s).st
      simp only [if_pos hc, existChecks_append, createOpens_append, hcx, hcc, ix, List.map_cons,
        List.nil_append, List.singleton_append, List.cons.injEq, true_and, List.mem_append]
      refine ⟨?_, ?_, ?_⟩
      · exact (List.prefix_cons_inj pn.1).mpr ip
      · rw [iv]
        constructor
        · rintro ⟨h1, h2⟩
          refine ⟨h1, ?_⟩
          rintro e (h | h)
          · exact hcv.mp hc e h
          · exact h2 e h
        · rintro ⟨h1, h2⟩
          exact ⟨h1, fun e h => h2 e (Or.inr h)⟩
      · exact noOpenAfterFailure_append _ _ hcn inf (Or.inl (hcv.mp hc))
    · simp only [if_neg hc, hcx, hcc, List.map_cons, true_and]
      refine ⟨?_, ?_, hcn⟩
      · exact List.prefix_iff_eq_append.mpr (by simp)
      · constructor
        · intro h; cases h
        · rintro ⟨-, h2⟩
          exact absurd (hcv.mpr h2) hc

/-- C9: with a (non-empty) build timestamp, which the `date` buffer never equals, and the
format mode, `gdo_file_system_init` issues the flash read, the erase of the 4096-byte stamp
region, the write of the compiled-in timestamp at the stamp offset and the erase of the
file-system partition, and then, only if that erase succeeded (`gdo_disk_init` always returns
0), the creation loop over the four well-known files with their fixed sizes; it returns
`true` exactly when the partition erase and the loop succeed.  The loop makes no existence
check, opens the files in table order, succeeds exactly when all four were opened and no
step failed, and opens no further file after a failed step. -/
theorem init_format_contract (d : Driver σ) (cfg : Config) (s : σ)
    (hts : cfg.BUILD_TIMESTAMP ≠ []) (hmode : cfg.GDO_FS_INIT_TYPE = cfg.GDO_FS_FORMAT)
    (hlen : ∀ pn ∈ wellKnownFiles cfg, pn.1.length < cfg.GDO_FS_MAX_PATH_LEN) :
    (gdo_file_system_init d cfg s).tr
      = (initRead d cfg s).tr ++ (stampReset d cfg (initRead d cfg s).st).tr
        ++ (formatErase d cfg s).tr
        ++ (if (formatErase d cfg s).val = true then
              (createSeq d cfg (wellKnownFiles cfg) (formatErase d cfg s).st).tr
            else []) ∧
    ((gdo_file_system_init d cfg s).val = true ↔
      ((formatErase d cfg s).val = true ∧
        (createSeq d cfg (wellKnownFiles cfg) (formatErase d cfg s).st).val = true)) ∧
    (∀ t, d.device_is_ready t = true →
      d.device_is_ready (d.flash_erase t cfg.GDO_BUILD_TIME_OFFSET 4096).2 = true →
      (stampReset d cfg t).tr
        = [Event.flash_erase cfg.GDO_BUILD_TIME_OFFSET 4096
            (d.flash_erase t cfg.GDO_BUILD_TIME_OFFSET 4096).1,
           Event.flash_write cfg.GDO_BUILD_TIME_OFFSET (cfg.BUILD_TIMESTAMP ++ [0])
            (d.flash_write (d.flash_erase t cfg.GDO_BUILD_TIME_OFFSET 4096).2
              cfg.GDO_BUILD_TIME_OFFSET (cfg.BUILD_TIMESTAMP ++ [0])).1]) ∧
    (∀ t, d.device_is_ready t = true →
      (gdo_flash_earse_region d cfg.SPI_FLASH_FS_REGION_OFFSET cfg.SPI_FLASH_FS_SECTOR_SIZE t).tr
        = [Event.flash_erase cfg.SPI_FLASH_FS_REGION_OFFSET cfg.SPI_FLASH_FS_SECTOR_SIZE
            (d.flash_erase t cfg.SPI_FLASH_FS_REGION_OFFSET cfg.SPI_FLASH_FS_SECTOR_SIZE).1] ∧
      ((gdo_flash_earse_region d cfg.SPI_FLASH_FS_REGION_OFFSET
          cfg.SPI_FLASH_FS_SECTOR_SIZE t).val = true ↔
        (d.flash_erase t cfg.SPI_FLASH_FS_REGION_OFFSET cfg.SPI_FLASH_FS_SECTOR_SIZE).1 = 0)) ∧
    (existChecks (createSeq d cfg (wellKnownFiles cfg) (formatErase d cfg s).st).tr = [] ∧
      createOpens (createSeq d cfg (wellKnownFiles cfg) (formatErase d cfg s).st).tr
        <+: [cfg.GDO_USER_INFOR_FULL_PATH, cfg.SCHEDULE_CURRENT_FILE_FULL_PATH,
             cfg.SCHEDULE_BACKUP_FILE_FULL_PATH, cfg.HOME_CFG_FILE_FULL_PATH] ∧
      ((createSeq d cfg (wellKnownFiles cfg) (formatErase d cfg s).st).val = true ↔
        (createOpens (createSeq d cfg (wellKnownFiles cfg) (formatErase d cfg s).st).tr
          = [cfg.GDO_USER_INFOR_FULL_PATH, cfg.SCHEDULE_CURRENT_FILE_FULL_PATH,
             cfg.SCHEDULE_BACKUP_FILE_FULL_PATH, cfg.HOME_CFG_FILE_FULL_PATH] ∧
          ∀ e ∈ (createSeq d cfg (wellKnownFiles cfg) (formatErase d cfg s).st).tr,
            e.failedCreateStep = false)) ∧
      noOpenAfterFailure (createSeq d cfg (wellKnownFiles cfg) (formatErase d cfg s).st).tr
        = true) := by
  have hne : ¬ (([] : CStr) = cfg.BUILD_TIMESTAMP) := fun e => hts e.symm
  have hinit : gdo_file_system_init d cfg s =
      if (formatErase d cfg s).val = false then
        ⟨false, (formatErase d cfg s).st,
          (initRead d cfg s).tr ++ (stampReset d cfg (initRead d cfg s).st).tr
            ++ (formatErase d cfg s).tr⟩
      else
        ⟨(createSeq d cfg (wellKnownFiles cfg) (formatErase d cfg s).st).val,
          (createSeq d cfg (wellKnownFiles cfg) (formatErase d cfg s).st).st,
          (initRead d cfg s).tr ++ (stampReset d cfg (initRead d cfg s).st).tr
            ++ (formatErase d cfg s).tr
            ++ (createSeq d cfg (wellKnownFiles cfg) (formatErase d cfg s).st).tr⟩ := by
    unfold gdo_file_system_init
    simp only [date_after_memset, hne, if_false, hmode, if_true, gdo_disk_init, ne_eq,
      not_true_eq_false, createAllFiles_eq_createSeq, formatErase]
  refine ⟨?_, ?_, ?_, ?_, ?_⟩
  · rw [hinit]
    by_cases hf : (formatErase d cfg s).val = false
    · simp [hf]
    · simp [hf]
  · rw [hinit]
    by_cases hf : (formatErase d cfg s).val = false
    · simp [hf]
    · simp [hf]
  · intro t h1 h2
    simp [stampReset, gdo_flash_earse_region, gdo_flash_write_offset, h1, h2]
  · intro t h1
    simp [gdo_flash_earse_region, h1]
  · exact createSeq_props d cfg (wellKnownFiles cfg) hlen (formatErase d cfg s).st

/-- Witness of `init_format_contract` on the in-memory device with erased flash: the sample
configuration is in format mode, and the routine succeeds exactly when the partition erase
and the creation loop do. -/
theorem init_format_contract_witness :
    demoCfg.BUILD_TIMESTAMP ≠ [] ∧ demoCfg.GDO_FS_INIT_TYPE = demoCfg.GDO_FS_FORMAT ∧
    ((gdo_file_system_init memDriver demoCfg staleFlash).val = true ↔
      ((formatErase memDriver demoCfg staleFlash).val = true ∧
        (createSeq memDriver demoCfg (wellKnownFiles demoCfg)
          (formatErase memDriver demoCfg staleFlash).st).val = true)) :=
  ⟨by decide, by decide,
    (init_format_contract memDriver demoCfg staleFlash (by decide) (by decide) (by decide)).2.1⟩

/-! ### Lock and handle discipline of the remaining gateway functions -/

/-- A `gdo_fs_create_file` trace is lock-neutral at every nesting depth: the rest of a trace
is judged at the depth at which the creation started. -/
theorem create_file_lock_neutral (d : Driver σ) (cfg : Config) (p : CStr) (n : Nat) (s : σ)
    (k : Nat) (rest : List Event) :
    lockBalanced k ((gdo_fs_create_file d cfg p n s).tr ++ rest) = lockBalanced k rest := by
  unfold gdo_fs_create_file
  dsimp only
  split_ifs <;> simp [lockBalanced]

/-- Every outcome of `gdo_fs_create_file`, `gdo_fs_read_file`, `gdo_fs_read_file_index`,
`gdo_fs_write_file_index`, `gdo_fs_file_exist` and `gdo_fs_delete_file` has a balanced lock
trace. -/
theorem gateway_lock_balanced (d : Driver σ) (cfg : Config) (disk p : CStr) (buff : List Nat)
    (n len index : Nat) (s : σ) :
    lockBalanced 0 (gdo_fs_create_file d cfg p n s).tr = true ∧
    lockBalanced 0 (gdo_fs_read_file d disk p len s).tr = true ∧
    lockBalanced 0 (gdo_fs_read_file_index d disk p len index s).tr = true ∧
    lockBalanced 0 (gdo_fs_write_file_index d disk p buff len index s).tr = true ∧
    lockBalanced 0 (gdo_fs_file_exist d p s).tr = true ∧
    lockBalanced 0 (gdo_fs_delete_file d cfg disk p s).tr = true := by
  refine ⟨?_, ?_, ?_, ?_, ?_, ?_⟩
  · have h := create_file_lock_neutral d cfg p n s 0 []
    simpa [lockBalanced] using h
  · unfold gdo_fs_read_file
    dsimp only
    split_ifs <;> simp [lockBalanced]
  · unfold gdo_fs_read_file_index
    dsimp only
    split_ifs <;> simp [lockBalanced]
  · unfold gdo_fs_write_file_index
    dsimp only
    split_ifs <;> simp [lockBalanced]
  · unfold gdo_fs_file_exist
    dsimp only
    split_ifs <;> simp [lockBalanced]
  · unfold gdo_fs_delete_file
    dsimp only
    split_ifs <;>
      simp [lockBalanced, List.append_assoc, create_file_lock_neutral]

/-- The directory loop of `gdo_fs_delete_all_file` issues no lock operation: the rest of a
trace is judged at the depth at which the loop started, the lock being held. -/
theorem deleteAllLoop_lock_neutral (d : Driver σ) (cfg : Config) (path : CStr) (k : Nat)
    (rest : List Event) :
    ∀ (fuel count : Nat) (s : σ) (r : Ret (Option Nat) σ),
      deleteAllLoop d cfg path fuel count s = some r →
      lockBalanced (k + 1) (r.tr ++ rest) = lockBalanced (k + 1) rest := by
  intro fuel
  induction fuel with
  | zero => intro count s r h; simp [deleteAllLoop] at h
  | succ m ih =>
    intro count s r h
    unfold deleteAllLoop at h
    by_cases hb : (d.fs_readdir s).1 ≠ 0 ∨ (d.fs_readdir s).2.1.name = []
    · simp only [if_pos hb, Option.some.injEq] at h
      subst h
      simp [lockBalanced]
    · simp only [if_neg hb] at h
      by_cases hov : cfg.GDO_FS_MAX_PATH_LEN ≤ path.length + 1 + (d.fs_readdir s).2.1.name.length
      · simp only [if_pos hov, Option.some.injEq] at h
        subst h
        simp [lockBalanced]
      · simp only [if_neg hov] at h
        split at h
        · simp at h
        · rename_i l hrec
          simp only [Option.some.injEq] at h
          subst h
          simp [lockBalanced, ih _ _ l hrec]

/-- Every run of `gdo_fs_delete_all_file` that returns has a balanced lock trace. -/
theorem delete_all_lock_balanced (d : Driver σ) (cfg : Config) (fuel : Nat) (disk path : CStr)
    (s : σ) (r : Ret (Option Int) σ) (res : Int)
    (h : gdo_fs_delete_all_file d cfg fuel disk path s = some r) (hv : r.val = some res) :
    lockBalanced 0 r.tr = true := by
  unfold gdo_fs_delete_all_file at h
  by_cases ho : (d.fs_opendir s path).1 ≠ 0
  · simp only [if_pos ho, Option.some.injEq] at h
    subst h
    simp [lockBalanced]
  · simp only [if_neg ho] at h
    split at h
    · simp at h
    · rename_i l hrec
      split at h
      · simp only [Option.some.injEq] at h
        subst h
        simp at hv
      · simp only [Option.some.injEq] at h
        subst h
        have := deleteAllLoop_lock_neutral d cfg path 0 [Event.unlock] fuel 0 _ l hrec
        simpa [lockBalanced] using this

/-- A `gdo_fs_create_file` trace closes the handle it opens: the rest of a trace is judged
with no handle open. -/
theorem create_file_handle_neutral (d : Driver σ) (cfg : Config) (p : CStr) (n : Nat) (s : σ)
    (rest : List Event) :
    handlesClosed false ((gdo_fs_create_file d cfg p n s).tr ++ rest)
      = handlesClosed false rest := by
  unfold gdo_fs_create_file
  dsimp only
  split_ifs <;> simp_all [handlesClosed]

/-- Every outcome of `gdo_fs_create_file`, `gdo_fs_read_file`, `gdo_fs_read_file_index`,
`gdo_fs_write_file`, `gdo_fs_file_exist` and `gdo_fs_delete_file` closes the file it
opened. -/
theorem gateway_handles_closed (d : Driver σ) (cfg : Config) (disk p : CStr) (buff : List Nat)
    (n len index : Nat) (s : σ) :
    handlesClosed false (gdo_fs_create_file d cfg p n s).tr = true ∧
    handlesClosed false (gdo_fs_read_file d disk p len s).tr = true ∧
    handlesClosed false (gdo_fs_read_file_index d disk p len index s).tr = true ∧
    handlesClosed false (gdo_fs_write_file d disk p buff len s).tr = true ∧
    handlesClosed false (gdo_fs_file_exist d p s).tr = true ∧
    handlesClosed false (gdo_fs_delete_file d cfg disk p s).tr = true := by
  refine ⟨?_, ?_, ?_, ?_, ?_, ?_⟩
  · have h := create_file_handle_neutral d cfg p n s []
    simpa [handlesClosed] using h
  · unfold gdo_fs_read_file
    dsimp only
    split_ifs <;> simp_all [handlesClosed]
  · unfold gdo_fs_read_file_index
    dsimp only
    split_ifs <;> simp_all [handlesClosed]
  · unfold gdo_fs_write_file
    dsimp only
    split_ifs <;> simp_all [handlesClosed]
  · unfold gdo_fs_file_exist
    dsimp only
    split_ifs <;> simp_all [handlesClosed]
  · unfold gdo_fs_delete_file
    dsimp only
    split_ifs <;>
      simp [handlesClosed, List.append_assoc, create_file_handle_neutral]

/-- After a successful open and seek, `gdo_fs_read_file_index` returns `len` when `fs_read`
delivers exactly `len` bytes and -1 when it reports an error or another count (`len` a
32-bit `size_t`, the return code of `fs_read` a 32-bit `int`). -/
theorem read_file_index_all_or_nothing (d : Driver σ) (disk p : CStr) (len index : Nat) (s : σ)
    (hlen : len < 2 ^ 32)
    (ho : (d.fs_open s p FS_O_READ).1 = 0)
    (hk : (d.fs_seek (d.fs_open s p FS_O_READ).2 index).1 = 0)
    (hrc : (d.fs_read (d.fs_seek (d.fs_open s p FS_O_READ).2 index).2 len).1 < 2 ^ 31) :
    ((d.fs_read (d.fs_seek (d.fs_open s p FS_O_READ).2 index).2 len).1 = (len : Int) →
      (gdo_fs_read_file_index d disk p len index s).val.1 = (len : Int)) ∧
    ((d.fs_read (d.fs_seek (d.fs_open s p FS_O_READ).2 index).2 len).1 ≠ (len : Int) →
      (gdo_fs_read_file_index d disk p len index s).val.1 = -1) := by
  unfold gdo_fs_read_file_index
  simp only [ho, hk, ne_eq, not_true_eq_false, if_false]
  generalize (d.fs_read (d.fs_seek (d.fs_open s p FS_O_READ).2 index).2 len).1 = rc at hrc ⊢
  constructor
  · intro h
    subst h
    have h1 : ¬ ((len : Int) < 0) := by omega
    have h2 : toSizeT (len : Int) = len := by
      unfold toSizeT
      omega
    simp [h1, h2]
  · intro h
    by_cases hneg : rc < 0
    · simp only [if_pos hneg]
      split_ifs <;> rfl
    · have h2 : toSizeT rc ≠ len := by
        unfold toSizeT
        omega
      simp [hneg, h2]

/-! ### Write entry points -/

/-- C11: with `len` a 32-bit `size_t`, both write entry points return the failing code
(non-zero) of `fs_open` without any further file-system call, `gdo_fs_write_file_index`
returns the failing code (non-zero) of `fs_seek` without issuing `fs_write`, and once the
open (and the seek) succeeded both return `len` when `fs_write` transfers exactly `len`
bytes and -1 when it reports an error or another count (its return code a 32-bit `int`). -/
theorem write_entry_points_contract (d : Driver σ) (disk p : CStr) (buff : List Nat)
    (len index : Nat) (s : σ) (hlen : len < 2 ^ 32) :
    ((d.fs_open s p (FS_O_APPEND ||| FS_O_WRITE)).1 ≠ 0 →
      (gdo_fs_write_file d disk p buff len s).val = (d.fs_open s p (FS_O_APPEND ||| FS_O_WRITE)).1 ∧
      (gdo_fs_write_file d disk p buff len s).val ≠ 0 ∧
      (gdo_fs_write_file d disk p buff len s).tr
        = [Event.lock, Event.fs_open p (FS_O_APPEND ||| FS_O_WRITE)
            (d.fs_open s p (FS_O_APPEND ||| FS_O_WRITE)).1, Event.unlock]) ∧
    ((d.fs_open s p (FS_O_APPEND ||| FS_O_WRITE)).1 = 0 →
      (d.fs_write (d.fs_open s p (FS_O_APPEND ||| FS_O_WRITE)).2 buff len).1 < 2 ^ 31 →
      ((d.fs_write (d.fs_open s p (FS_O_APPEND ||| FS_O_WRITE)).2 buff len).1 = (len : Int) →
        (gdo_fs_write_file d disk p buff len s).val = (len : Int)) ∧
      ((d.fs_write (d.fs_open s p (FS_O_APPEND ||| FS_O_WRITE)).2 buff len).1 ≠ (len : Int) →
        (gdo_fs_write_file d disk p buff len s).val = -1)) ∧
    ((d.fs_open s p FS_O_WRITE).1 ≠ 0 →
      (gdo_fs_write_file_index d disk p buff len index s).val = (d.fs_open s p FS_O_WRITE).1 ∧
      (gdo_fs_write_file_index d disk p buff len index s).val ≠ 0 ∧
      (gdo_fs_write_file_index d disk p buff len index s).tr
        = [Event.lock, Event.fs_open p FS_O_WRITE (d.fs_open s p FS_O_WRITE).1, Event.unlock]) ∧
    ((d.fs_open s p FS_O_WRITE).1 = 0 →
      (d.fs_seek (d.fs_open s p FS_O_WRITE).2 index).1 ≠ 0 →
      (gdo_fs_write_file_index d disk p buff len index s).val
        = (d.fs_seek (d.fs_open s p FS_O_WRITE).2 index).1 ∧
      (gdo_fs_write_file_index d disk p buff len index s).val ≠ 0 ∧
      (gdo_fs_write_file_index d disk p buff len index s).tr
        = [Event.lock, Event.fs_open p FS_O_WRITE 0,
           Event.fs_seek index (d.fs_seek (d.fs_open s p FS_O_WRITE).2 index).1,
           Event.unlock]) ∧
    ((d.fs_open s p FS_O_WRITE).1 = 0 →
      (d.fs_seek (d.fs_open s p FS_O_WRITE).2 index).1 = 0 →
      (d.fs_write (d.fs_seek (d.fs_open s p FS_O_WRITE).2 index).2 buff len).1 < 2 ^ 31 →
      ((d.fs_write (d.fs_seek (d.fs_open s p FS_O_WRITE).2 index).2 buff len).1 = (len : Int) →
        (gdo_fs_write_file_index d disk p buff len index s).val = (len : Int)) ∧
      ((d.fs_write (d.fs_seek (d.fs_open s p FS_O_WRITE).2 index).2 buff len).1 ≠ (len : Int) →
        (gdo_fs_write_file_index d disk p buff len index s).val = -1)) := by
  have key : ∀ rc : Int, rc < 2 ^ 31 →
      (rc = (len : Int) → ¬ (rc < 0 ∨ toSizeT rc ≠ len)) ∧
      (rc ≠ (len : Int) → (rc < 0 ∨ toSizeT rc ≠ len)) := by
    intro rc hrc
    unfold toSizeT
    constructor
    · intro h; omega
    · intro h; omega
  refine ⟨?_, ?_, ?_, ?_, ?_⟩
  · intro ho
    unfold gdo_fs_write_file
    simp only [ne_eq, ho, not_false_eq_true, if_true]
    refine ⟨?_, ?_, ?_⟩ <;> first | rfl | trivial
  · intro ho hrc
    unfold gdo_fs_write_file
    simp only [ne_eq, ho, not_true_eq_false, if_false]
    constructor
    · intro h
      rw [if_neg ((key _ hrc).1 h)]
      exact h
    · intro h
      rw [if_pos ((key _ hrc).2 h)]
  · intro ho
    unfold gdo_fs_write_file_index
    simp only [ne_eq, ho, not_false_eq_true, if_true]
    refine ⟨?_, ?_, ?_⟩ <;> first | rfl | trivial
  · intro ho hk
    unfold gdo_fs_write_file_index
    simp only [ne_eq, ho, hk, not_true_eq_false, not_false_eq_true, if_true, if_false]
    refine ⟨?_, ?_, ?_⟩ <;> first | rfl | trivial
  · intro ho hk hrc
    unfold gdo_fs_write_file_index
    simp only [ne_eq, ho, hk, not_true_eq_false, if_false]
    constructor
    · intro h
      rw [if_neg ((key _ hrc).1 h)]
      exact h
    · intro h
      rw [if_pos ((key _ hrc).2 h)]

/-- Witness of `write_entry_points_contract` on scripted outcomes: a full write of 4 bytes, a
short write of 2 bytes, a failing seek and a full write at an offset. -/
theorem write_entry_points_contract_witness :
    (gdo_fs_write_file scriptDriver [] [47, 117] [1, 2, 3, 4] 4 [0, 4]).val = 4 ∧
    (gdo_fs_write_file scriptDriver [] [47, 117] [1, 2, 3, 4] 4 [0, 2]).val = -1 ∧
    (gdo_fs_write_file_index scriptDriver [] [47, 117] [1, 2, 3, 4] 4 3 [0, -5]).val = -5 ∧
    (gdo_fs_write_file_index scriptDriver [] [47, 117] [1, 2, 3, 4] 4 3 [0, 0, 4]).val = 4 :=
  ⟨((write_entry_points_contract scriptDriver [] [47, 117] [1, 2, 3, 4] 4 3 [0, 4]
      (by norm_num)).2.1 rfl (by decide)).1 rfl,
    ((write_entry_points_contract scriptDriver [] [47, 117] [1, 2, 3, 4] 4 3 [0, 2]
      (by norm_num)).2.1 rfl (by decide)).2 (by decide),
    ((write_entry_points_contract scriptDriver [] [47, 117] [1, 2, 3, 4] 4 3 [0, -5]
      (by norm_num)).2.2.2.1 rfl (by decide)).1,
    ((write_entry_points_contract scriptDriver [] [47, 117] [1, 2, 3, 4] 4 3 [0, 0, 4]
      (by norm_num)).2.2.2.2 rfl rfl (by decide)).1 rfl⟩

/-! ### Existence check -/

/-- C12: `gdo_fs_file_exist` classifies the return code of the read-only open: `FILE_EXIST`
exactly for code 0 (the file is then closed), `FILE_NOT_EXIST` exactly for `-ENOENT`,
`FILE_ERROR` exactly for every other code; the three results are pairwise distinct; the only
file-system calls are the read-only open and, after a successful open, the close, none of
which mutates storage; on the in-memory file system every file is left as it was. -/
theorem file_exist_classification (d : Driver σ) (p : CStr) (s : σ) :
    ((gdo_fs_file_exist d p s).val = FILE_EXIST ↔ (d.fs_open s p FS_O_READ).1 = 0) ∧
    ((gdo_fs_file_exist d p s).val = FILE_NOT_EXIST ↔ (d.fs_open s p FS_O_READ).1 = -ENOENT) ∧
    ((gdo_fs_file_exist d p s).val = FILE_ERROR ↔
      ((d.fs_open s p FS_O_READ).1 ≠ 0 ∧ (d.fs_open s p FS_O_READ).1 ≠ -ENOENT)) ∧
    (FILE_EXIST ≠ FILE_NOT_EXIST ∧ FILE_EXIST ≠ FILE_ERROR ∧ FILE_NOT_EXIST ≠ FILE_ERROR) ∧
    ((gdo_fs_file_exist d p s).tr
        = (if (d.fs_open s p FS_O_READ).1 = 0 then
            [Event.lock, Event.fs_open p FS_O_READ 0,
             Event.fs_close (d.fs_close (d.fs_open s p FS_O_READ).2).1, Event.unlock]
          else
            [Event.lock, Event.fs_open p FS_O_READ (d.fs_open s p FS_O_READ).1,
             Event.unlock])) ∧
    (∀ e ∈ (gdo_fs_file_exist d p s).tr, e.mutates = false) ∧
    (∀ (m : MemFs) (q : CStr), (gdo_fs_file_exist memDriver p m).st.files q = m.files q) := by
  have hne : (-ENOENT : Int) ≠ 0 := by decide
  refine ⟨?_, ?_, ?_, by decide, ?_, ?_, ?_⟩
  · unfold gdo_fs_file_exist
    dsimp only
    split_ifs with h0 h1
    · simp [h0]
    · simp [h0, FILE_EXIST, FILE_NOT_EXIST]
    · simp [h0, FILE_EXIST, FILE_ERROR]
  · exact (file_exist_trace d p s).2.2.2
  · unfold gdo_fs_file_exist
    dsimp only
    split_ifs with h0 h1
    · simp [h0, FILE_EXIST, FILE_ERROR]
    · simp [h0, h1, FILE_NOT_EXIST, FILE_ERROR]
    · simp [h0, h1]
  · unfold gdo_fs_file_exist
    dsimp only
    split_ifs with h0 h1
    · simp [h0]
    · rfl
    · rfl
  · intro e he
    exact ((file_exist_trace d p s).2.2.1 e he).2
  · intro m q
    unfold gdo_fs_file_exist
    cases hf : m.files p <;>
      simp [memDriver, memOpen, memClose, MemFs.setCur, hf, FS_O_READ, FS_O_CREATE, ENOENT]

/-! ### Deleting every entry of a directory -/

/-- Every run of the directory loop that breaks returns the start count plus the number of
`fs_unlink` calls, unlinks `path/name` for each entry read, in order, reads the directory
once more than it unlinks, and opens no directory. -/
theorem deleteAllLoop_trace (d : Driver σ) (cfg : Config) (path : CStr) :
    ∀ (fuel count : Nat) (s : σ) (r : Ret (Option Nat) σ) (v : Nat),
      deleteAllLoop d cfg path fuel count s = some r → r.val = some v →
      v = count + (unlinkedPaths r.tr).length ∧
      unlinkedPaths r.tr = (entriesRead r.tr).map (fun name => path ++ [47] ++ name) ∧
      r.tr.countP Event.isReaddir = (unlinkedPaths r.tr).length + 1 ∧
      r.tr.countP Event.isOpendir = 0 := by
  intro fuel
  induction fuel with
  | zero => intro count s r v h; simp [deleteAllLoop] at h
  | succ m ih =>
    intro count s r v h hv
    unfold deleteAllLoop at h
    by_cases hb : (d.fs_readdir s).1 ≠ 0 ∨ (d.fs_readdir s).2.1.name = []
    · simp only [if_pos hb, Option.some.injEq] at h
      subst h
      have hb2 : ¬ ((d.fs_readdir s).1 = 0 ∧ ¬ (d.fs_readdir s).2.1.name = []) := by
        intro hc
        rcases hb with h1 | h1
        · exact h1 hc.1
        · exact hc.2 h1
      simp only [Option.some.injEq] at hv
      subst hv
      simp [unlinkedPaths, unlinkOf, entriesRead, entryOf, Event.isReaddir, Event.isOpendir,
        hb2]
    · simp only [if_neg hb] at h
      by_cases hov : cfg.GDO_FS_MAX_PATH_LEN ≤ path.length + 1 + (d.fs_readdir s).2.1.name.length
      · simp only [if_pos hov, Option.some.injEq] at h
        subst h
        simp at hv
      · simp only [if_neg hov] at h
        split at h
        · simp at h
        · rename_i l hrec
          simp only [Option.some.injEq] at h
          subst h
          obtain ⟨h1, h2, h3, h4⟩ := ih _ _ l v hrec hv
          have hb2 : (d.fs_readdir s).1 = 0 ∧ ¬ (d.fs_readdir s).2.1.name = [] := by
            constructor
            · by_contra hc; exact hb (Or.inl hc)
            · intro hc; exact hb (Or.inr hc)
          simp only [unlinkedPaths, entriesRead] at h1 h2 h3 ⊢
          refine ⟨?_, ?_, ?_, ?_⟩
          · simp [unlinkOf, h1]; omega
          · simp [unlinkOf, entryOf, hb2, h2]
          · simp [unlinkOf, Event.isReaddir, h3]
          · simp [Event.isOpendir, h4]

/-- The directory loop breaks as soon as the fuel exceeds the number `k` of entries read
before the first terminating `fs_readdir`, provided that `path/name` fits `path_temp` for
each of these entries, and then returns the start count plus `k`. -/
theorem deleteAllLoop_total (d : Driver σ) (cfg : Config) (path : CStr) :
    ∀ (k fuel count : Nat) (s : σ), k < fuel → loopStops d (loopState d path k s) = true →
      (∀ j, j < k → loopStops d (loopState d path j s) = false) →
      (∀ j, j < k → path.length + 1 + (d.fs_readdir (loopState d path j s)).2.1.name.length
        < cfg.GDO_FS_MAX_PATH_LEN) →
      ∃ r, deleteAllLoop d cfg path fuel count s = some r ∧ r.val = some (count + k) := by
  intro k
  induction k with
  | zero =>
    intro fuel count s hf hstop _ _
    obtain ⟨f, rfl⟩ : ∃ f, fuel = f + 1 := ⟨fuel - 1, by omega⟩
    have hb : (d.fs_readdir s).1 ≠ 0 ∨ (d.fs_readdir s).2.1.name = [] := by
      simpa [loopStops, loopState] using hstop
    unfold deleteAllLoop
    simp only [if_pos hb]
    exact ⟨_, rfl, rfl⟩
  | succ k ih =>
    intro fuel count s hf hstop hgo hfit
    obtain ⟨f, rfl⟩ : ∃ f, fuel = f + 1 := ⟨fuel - 1, by omega⟩
    have hb : ¬ ((d.fs_readdir s).1 ≠ 0 ∨ (d.fs_readdir s).2.1.name = []) := by
      have h0 := hgo 0 (by omega)
      simpa [loopStops, loopState] using h0
    have hov : ¬ (cfg.GDO_FS_MAX_PATH_LEN
        ≤ path.length + 1 + (d.fs_readdir s).2.1.name.length) := by
      have h0 := hfit 0 (by omega)
      simp only [loopState] at h0
      omega
    obtain ⟨r, hr, hv⟩ := ih f (count + 1) (loopNext d path s) (by omega)
      (by simpa [loopState] using hstop)
      (fun j hj => by simpa [loopState] using hgo (j + 1) (by omega))
      (fun j hj => by simpa [loopState] using hfit (j + 1) (by omega))
    unfold deleteAllLoop
    simp only [if_neg hb, if_neg hov]
    unfold loopNext at hr
    rw [hr]
    exact ⟨_, rfl, by simp only [hv, Option.some.injEq]; omega⟩

/-- Within the bound of `path_temp` the function does what C13 says: when `fs_opendir` fails
it returns that code and unlinks nothing; every run that returns after a successful
`fs_opendir` returns the number of `fs_unlink` calls, which are exactly one unlink of
`path/name` for each entry read, in order, with one more `fs_readdir` than unlinks (the
terminating one) and no further `fs_opendir`; and the run returns `k` as soon as the loop
bound exceeds the number `k` of entries delivered before the first `fs_readdir` that reports
an error or the empty-name sentinel, provided that `path/name` fits `path_temp` for each of
them. -/
theorem delete_all_within_path_buffer (d : Driver σ) (cfg : Config) (disk path : CStr) (s : σ) :
    ((d.fs_opendir s path).1 ≠ 0 → ∀ fuel, ∃ r,
      gdo_fs_delete_all_file d cfg fuel disk path s = some r ∧
      r.val = some (d.fs_opendir s path).1 ∧
      r.tr = [Event.lock, Event.fs_opendir path (d.fs_opendir s path).1, Event.unlock] ∧
      unlinkedPaths r.tr = []) ∧
    ((d.fs_opendir s path).1 = 0 → ∀ fuel r res,
      gdo_fs_delete_all_file d cfg fuel disk path s = some r → r.val = some res →
      res = ((unlinkedPaths r.tr).length : Int) ∧
      unlinkedPaths r.tr = (entriesRead r.tr).map (fun name => path ++ [47] ++ name) ∧
      r.tr.countP Event.isReaddir = (unlinkedPaths r.tr).length + 1 ∧
      r.tr.countP Event.isOpendir = 1) ∧
    ((d.fs_opendir s path).1 = 0 → ∀ k fuel, k < fuel →
      loopStops d (loopState d path k (d.fs_opendir s path).2) = true →
      (∀ j, j < k → loopStops d (loopState d path j (d.fs_opendir s path).2) = false) →
      (∀ j, j < k → path.length + 1
        + (d.fs_readdir (loopState d path j (d.fs_opendir s path).2)).2.1.name.length
        < cfg.GDO_FS_MAX_PATH_LEN) →
      ∃ r, gdo_fs_delete_all_file d cfg fuel disk path s = some r ∧
        r.val = some (k : Int)) := by
  refine ⟨?_, ?_, ?_⟩
  · intro ho fuel
    unfold gdo_fs_delete_all_file
    simp only [if_pos ho]
    exact ⟨_, rfl, rfl, rfl, rfl⟩
  · intro ho fuel r res h hres
    unfold gdo_fs_delete_all_file at h
    simp only [ne_eq, ho, not_true_eq_false, if_false] at h
    split at h
    · simp at h
    · rename_i l hrec
      split at h
      · simp only [Option.some.injEq] at h
        subst h
        simp at hres
      · rename_i cnt hcnt
        simp only [Option.some.injEq] at h
        subst h
        simp only [Option.some.injEq] at hres
        subst hres
        obtain ⟨h1, h2, h3, h4⟩ := deleteAllLoop_trace d cfg path fuel 0 _ l cnt hrec hcnt
        simp only [unlinkedPaths, entriesRead] at h1 h2 h3 ⊢
        refine ⟨?_, ?_, ?_, ?_⟩
        · simp [unlinkOf, h1]
        · simp [unlinkOf, entryOf, h2]
        · simp [unlinkOf, Event.isReaddir, h3]
        · simp [Event.isOpendir, h4]
  · intro ho k fuel hf hstop hgo hfit
    obtain ⟨l, hl, hv⟩ := deleteAllLoop_total d cfg path k fuel 0 _ hf hstop hgo hfit
    unfold gdo_fs_delete_all_file
    simp only [ne_eq, ho, not_true_eq_false, if_false]
    rw [hl]
    simp only [hv]
    exact ⟨_, rfl, by simp⟩

/-- An instance of `delete_all_within_path_buffer`: a directory `/d` whose listing delivers
`x`, `y` and then a read error -5 is processed with loop bound 5 and the count 2 is
returned. -/
theorem delete_all_within_path_buffer_example :
    ∃ r, gdo_fs_delete_all_file scriptDriver demoCfg 5 [] [47, 100] [0, 120, 0, 121, 0, -5]
        = some r ∧ r.val = some ((2 : Nat) : Int) :=
  (delete_all_within_path_buffer scriptDriver demoCfg [] [47, 100]
    [0, 120, 0, 121, 0, -5]).2.2 rfl 2 5 (by decide) (by decide) (by decide) (by decide)

set_option maxRecDepth 20000 in
/-- C13 (code defect, evaluated): with `GDO_FS_MAX_PATH_LEN` = 255, the directory `/d` holds
one entry whose name has 252 bytes, so that `/d`, `/`, the name and the terminator need 256
bytes: `gdo_fs_delete_all_file` reads the entry and overflows `path_temp`, there is no
`fs_unlink` and no defined return value; with a name of 251 bytes the entry is unlinked and
1 is returned. -/
theorem delete_all_overflows_path_buffer :
    demoCfg.GDO_FS_MAX_PATH_LEN
      ≤ ([47, 100] : CStr).length + 1 + (List.replicate 252 97 : CStr).length ∧
    (gdo_fs_delete_all_file memDriver demoCfg 4 [] [47, 100] (dirWithLongName 252)).map
        (fun r => (r.val, r.tr))
      = some (none, [Event.lock, Event.fs_opendir [47, 100] 0,
          Event.fs_readdir 0 (List.replicate 252 97)]) ∧
    (gdo_fs_delete_all_file memDriver demoCfg 4 [] [47, 100] (dirWithLongName 251)).map
        (fun r => (r.val, r.tr))
      = some (some 1, [Event.lock, Event.fs_opendir [47, 100] 0,
          Event.fs_readdir 0 (List.replicate 251 97),
          Event.fs_unlink ([47, 100, 47] ++ List.replicate 251 97) 0,
          Event.fs_readdir 0 [], Event.unlock]) := by
  decide

/-! ### Creation over an existing file -/

/-- C14 (code defect, evaluated): on the in-memory file system `/u` exists and holds the bytes
1, 2, 3; `gdo_fs_create_file` on `/u` with size 8 returns `true` and replaces the content by
eight zero bytes. -/
theorem create_file_truncates_existing_file :
    (memWithFile 64 [47, 117] [1, 2, 3]).files [47, 117] = some [1, 2, 3] ∧
    (gdo_fs_create_file memDriver demoCfg [47, 117] 8 (memWithFile 64 [47, 117] [1, 2, 3])).val
      = true ∧
    (gdo_fs_create_file memDriver demoCfg [47, 117] 8
      (memWithFile 64 [47, 117] [1, 2, 3])).st.files [47, 117]
      = some [0, 0, 0, 0, 0, 0, 0, 0] := by
  decide

/-! ### Selective mode -/

/-- C16 (code defect, evaluated): in selective mode with the user-info and home-config bits
set, on a device where a file cannot grow beyond 16 bytes, the re-creation of the 32-byte
user table fails, the later re-creation of the home configuration succeeds and overwrites
`flag`, the gap-fill finds `/u` present, and `gdo_file_system_init` returns `true` although
`/u` is left with length zero. -/
theorem init_selective_masks_failed_recreation :
    (demoCfgMode 10).GDO_FS_INIT_TYPE ≠ (demoCfgMode 10).GDO_FS_FORMAT ∧
    (demoCfgMode 10).GDO_FS_INIT_TYPE ≠ (demoCfgMode 10).GDO_FS_NO_CHANGE ∧
    (demoCfgMode 10).GDO_FS_INIT_TYPE &&& (demoCfgMode 10).GDO_FS_USER_INFO ≠ 0 ∧
    (demoCfgMode 10).GDO_FS_INIT_TYPE &&& (demoCfgMode 10).GDO_FS_HOME_CFG ≠ 0 ∧
    (gdo_fs_create_file memDriver (demoCfgMode 10) [47, 117] 32
      (stampReset memDriver (demoCfgMode 10) (initRead memDriver (demoCfgMode 10)
        smallFs).st).st).val = false ∧
    (gdo_file_system_init memDriver (demoCfgMode 10) smallFs).val = true ∧
    (gdo_file_system_init memDriver (demoCfgMode 10) smallFs).st.files [47, 117] = some [] := by
  decide

/-! ### Write and read back at an offset -/

/-- On the in-memory file system, `gdo_fs_write_file_index` of `len` bytes inside an existing
file returns `len`, replaces exactly the bytes at `offset .. offset + len` and leaves every
other file as it was. -/
theorem write_file_index_on_mem (m : MemFs) (disk p : CStr) (c buf : List Nat)
    (len offset : Nat) (hf : m.files p = some c) (hb : buf.length = len)
    (hin : offset + len ≤ c.length) (hcap : c.length ≤ m.capacity) (hlen : len < 2 ^ 31) :
    (gdo_fs_write_file_index memDriver disk p buf len offset m).val = (len : Int) ∧
    (gdo_fs_write_file_index memDriver disk p buf len offset m).st.files p
      = some (c.take offset ++ buf ++ c.drop (offset + len)) ∧
    (∀ q, q ≠ p →
      (gdo_fs_write_file_index memDriver disk p buf len offset m).st.files q = m.files q) := by
  have hsz : toSizeT (len : Int) = len := by
    unfold toSizeT
    omega
  have hcap2 : ¬ (m.capacity < offset + len) := by omega
  have hpad : offset - c.length = 0 := by omega
  have htake : buf.take len = buf := by
    rw [← hb]; simp
  have hnn : ¬ ((len : Int) < 0) := by omega
  have hW : ¬ (FS_O_WRITE = 0) := by decide
  have hA : FS_O_WRITE &&& FS_O_APPEND = 0 := by decide
  unfold gdo_fs_write_file_index
  refine ⟨?_, ?_, ?_⟩
  · simp [memDriver, memOpen, memSeek, memWrite, memClose, MemFs.setCur, MemFs.setFile, hf,
      hW, hA, hcap2, hsz, hnn]
  · simp [memDriver, memOpen, memSeek, memWrite, memClose, MemFs.setCur, MemFs.setFile, hf,
      hW, hA, hcap2, hpad, htake]
  · intro q hq
    simp [memDriver, memOpen, memSeek, memWrite, memClose, MemFs.setCur, MemFs.setFile, hf,
      hW, hA, hcap2, hq]

/-- On the in-memory file system, `gdo_fs_read_file_index` of `len` bytes inside an existing
file returns `len` and delivers the bytes at `offset .. offset + len`. -/
theorem read_file_index_on_mem (m : MemFs) (disk p : CStr) (c : List Nat) (len offset : Nat)
    (hf : m.files p = some c) (hin : offset + len ≤ c.length) (hlen : len < 2 ^ 31) :
    (gdo_fs_read_file_index memDriver disk p len offset m).val
      = ((len : Int), (c.drop offset).take len) := by
  have hl : ((c.drop offset).take len).length = len := by
    simp [List.length_take, List.length_drop]; omega
  have hsz : toSizeT (len : Int) = len := by
    unfold toSizeT
    omega
  have hnn : ¬ ((len : Int) < 0) := by omega
  have hR : ¬ (FS_O_READ = 0) := by decide
  unfold gdo_fs_read_file_index
  simp [memDriver, memOpen, memSeek, memRead, memClose, MemFs.setCur, hf, hR, hl, hsz, hnn]

/-- Replacing `buf.length` bytes at `offset` inside a byte list keeps its length, keeps every
byte outside the replaced range, and the replaced range reads back as `buf`. -/
theorem splice_facts (c0 buf : List Nat) (offset : Nat) (hin : offset + buf.length ≤ c0.length) :
    (c0.take offset ++ buf ++ c0.drop (offset + buf.length)).length = c0.length ∧
    (∀ i, i < offset ∨ offset + buf.length ≤ i →
      (c0.take offset ++ buf ++ c0.drop (offset + buf.length))[i]? = c0[i]?) ∧
    ((c0.take offset ++ buf ++ c0.drop (offset + buf.length)).drop offset).take buf.length
      = buf := by
  have hto : (c0.take offset).length = offset := by
    rw [List.length_take]; omega
  refine ⟨?_, ?_, ?_⟩
  · simp only [List.length_append, hto, List.length_drop]
    omega
  · intro i hi
    rcases hi with hi | hi
    · rw [List.append_assoc, List.getElem?_append_left (by omega)]
      rw [List.getElem?_take]
      simp [hi]
    · rw [List.getElem?_append_right (by simp only [List.length_append, hto]; omega)]
      simp only [List.length_append, hto, List.getElem?_drop]
      congr 1
      omega
  · rw [List.append_assoc, List.drop_left' hto, List.take_left' rfl]

/-- C15: on the in-memory file system (every call succeeds for a write inside an existing
file), `gdo_fs_write_file_index` of `buf` at `offset` followed by `gdo_fs_read_file_index`
of the same length at the same offset returns `len` from both calls and reads back `buf`;
the write keeps the length of the file and every byte outside `offset .. offset + len`, and
leaves every other file as it was. -/
theorem write_read_round_trip (m : MemFs) (disk p : CStr) (c0 buf : List Nat)
    (len offset : Nat) (hf : m.files p = some c0) (hb : buf.length = len)
    (hin : offset + len ≤ c0.length) (hcap : c0.length ≤ m.capacity) (hlen : len < 2 ^ 31) :
    (gdo_fs_write_file_index memDriver disk p buf len offset m).val = (len : Int) ∧
    (gdo_fs_read_file_index memDriver disk p len offset
      (gdo_fs_write_file_index memDriver disk p buf len offset m).st).val = ((len : Int), buf) ∧
    (∃ c2, (gdo_fs_write_file_index memDriver disk p buf len offset m).st.files p = some c2 ∧
      c2.length = c0.length ∧
      ∀ i, i < offset ∨ offset + len ≤ i → c2[i]? = c0[i]?) ∧
    (∀ q, q ≠ p →
      (gdo_fs_write_file_index memDriver disk p buf len offset m).st.files q = m.files q) := by
  obtain ⟨hv, hfile, hother⟩ := write_file_index_on_mem m disk p c0 buf len offset hf hb hin hcap hlen
  subst hb
  obtain ⟨h1, h2, h3⟩ := splice_facts c0 buf offset hin
  refine ⟨hv, ?_, ⟨_, hfile, h1, h2⟩, hother⟩
  rw [read_file_index_on_mem _ disk p _ buf.length offset hfile (by omega) hlen, h3]

/-- Witness of `write_read_round_trip`: `/u` holds the bytes 1 to 6; writing 7, 8 at offset 2
and reading two bytes back at offset 2 returns 2 from both calls and delivers 7, 8. -/
theorem write_read_round_trip_witness :
    (gdo_fs_write_file_index memDriver [] [47, 117] [7, 8] 2 2
      (memWithFile 64 [47, 117] [1, 2, 3, 4, 5, 6])).val = ((2 : Nat) : Int) ∧
    (gdo_fs_read_file_index memDriver [] [47, 117] 2 2
      (gdo_fs_write_file_index memDriver [] [47, 117] [7, 8] 2 2
        (memWithFile 64 [47, 117] [1, 2, 3, 4, 5, 6])).st).val = (((2 : Nat) : Int), [7, 8]) :=
  have h := write_read_round_trip (memWithFile 64 [47, 117] [1, 2, 3, 4, 5, 6]) [] [47, 117]
    [1, 2, 3, 4, 5, 6] [7, 8] 2 2 (by decide) (by decide) (by decide) (by decide) (by norm_num)
  ⟨h.1, h.2.1⟩

/-- In the selective part of `gdo_file_system_init` the value of `flag` is the result of the
last selected re-creation: with the home-config bit set it is the result of the home-config
creation alone, whatever the earlier selected re-creations returned. -/
theorem selectiveRecreate_last_assignment_wins (d : Driver σ) (cfg : Config) (s : σ)
    (h : cfg.GDO_FS_INIT_TYPE &&& cfg.GDO_FS_HOME_CFG ≠ 0) :
    ∃ t, (selectiveRecreate d cfg s).val
      = (gdo_fs_create_file d cfg cfg.HOME_CFG_FILE_FULL_PATH cfg.HOME_CFG_FILE_SIZE t).val := by
  unfold selectiveRecreate
  simp only [if_pos h]
  exact ⟨_, rfl⟩

end GdoFs
